import Mathlib

/-!
# Verification of the email-reminders bot core

Shallow embedding of the repository's core components and proofs of the
spec claims about them:

* `telegram_webhook` / conversation state machine       (src/app.py)
* `dispatch_due_reminders` and the sheet repository     (src/app.py, src/sheets_repo.py)
* `gmail_webhook` and `GmailClient.list_new_message_ids_since`
                                                        (src/app.py, src/gmail_client.py)
* `parse_custom_datetime` (Python `strptime` with format `%d/%m/%Y %H:%M`)
* `load_settings` / `parse_allowed_sender_emails`       (src/config.py)

Conventions: Gmail history ids and checkpoint values are modelled as
`String` (they are handled as opaque strings by the code; `str(x)` is the
identity under this reading).  Instants are modelled as `Int` (only their
order matters to the code).  Fallible collaborator calls (the Sheets store,
the Telegram API, the Gmail API) are modelled by explicit outcome oracles
passed to the handler.
-/

namespace EmailBot

/-! ## Python string helpers -/

/-- Python's notion of whitespace for `str.strip` and the `\s` regex class
(ASCII part plus the common Unicode spaces used by CPython). -/
def pyIsSpace (c : Char) : Bool :=
  c = ' ' || c = '\t' || c = '\n' || c = '\r' || c = '\x0b' || c = '\x0c' ||
  c = '\u0085' || c = ' ' || c = ' ' || c = ' ' || c = '　'

/-- Python `str.strip()`: drop whitespace from both ends. -/
def pyStrip (s : String) : String :=
  ⟨((s.data.dropWhile pyIsSpace).reverse.dropWhile pyIsSpace).reverse⟩

/-- Python `str.lower()` restricted to ASCII (all strings the code lowers are
email headers/addresses). -/
def pyLower (s : String) : String := ⟨s.data.map Char.toLower⟩

/-- Python `str.startswith`. -/
def pyStartsWith (s p : String) : Bool := p.data.isPrefixOf s.data

/-- Python `needle in haystack` on strings: substring containment. -/
def listContainsSub (hay needle : List Char) : Bool :=
  match hay with
  | [] => needle.isEmpty
  | _ :: t => needle.isPrefixOf hay || listContainsSub t needle

def pyInStr (needle hay : String) : Bool := listContainsSub hay.data needle.data

/-- Python `s.split(sep, 1)`: split at the first occurrence of `sep` only. -/
def pySplit1 (sep : Char) (cs : List Char) : List (List Char) :=
  match cs with
  | [] => [[]]
  | c :: t =>
    if c = sep then [[], t]
    else match pySplit1 sep t with
         | [] => [[c]]
         | h :: r => (c :: h) :: r

/-- Python `s.split(sep, 2)`: split at the first two occurrences of `sep`. -/
def pySplit2 (sep : Char) (cs : List Char) : List (List Char) :=
  match cs with
  | [] => [[]]
  | c :: t =>
    if c = sep then [] :: pySplit1 sep t
    else match pySplit2 sep t with
         | [] => [[c]]
         | h :: r => (c :: h) :: r

/-! ## `parse_custom_datetime` (src/app.py lines 157-166)

The Python code is `datetime.strptime(date_text, "%d/%m/%Y %H:%M")` followed
by a timezone attach.  We model CPython's `_strptime` regexes exactly:

* `%d` = `3[0-1] | [1-2]\d | 0[1-9] | [1-9] | ' '[1-9]`
* `%m` = `1[0-2] | 0[1-9] | [1-9]`
* `%Y` = `\d\d\d\d` (exactly four digits)
* a space in the format matches `\s+`
* `%H` = `2[0-3] | [0-1]\d | \d`
* `%M` = `[0-5]\d | \d`

The regex is anchored at the start and `strptime` requires the whole input
consumed.  Constructing the resulting `datetime` additionally requires
`year ≥ 1` and the day to exist in the month. -/

def dval (c : Char) : Nat := c.toNat - 48

/-- Candidate matches of the `%d` regex alternatives, in regex order.
Each candidate is the parsed value together with the unconsumed rest. -/
def dayCands (cs : List Char) : List (Nat × List Char) :=
  (match cs with
   | c1 :: c2 :: r =>
     (if c1 = '3' && (c2 = '0' || c2 = '1') then [(30 + dval c2, r)] else [])
     ++ (if (c1 = '1' || c1 = '2') && c2.isDigit then [(10 * dval c1 + dval c2, r)] else [])
     ++ (if c1 = '0' && ('1' ≤ c2 && c2 ≤ '9') then [(dval c2, r)] else [])
     ++ (if '1' ≤ c1 && c1 ≤ '9' then [(dval c1, c2 :: r)] else [])
     ++ (if c1 = ' ' && ('1' ≤ c2 && c2 ≤ '9') then [(dval c2, r)] else [])
   | [c1] =>
     if '1' ≤ c1 && c1 ≤ '9' then [(dval c1, [])] else []
   | [] => [])

/-- Candidate matches of the `%m` regex alternatives, in regex order. -/
def monthCands (cs : List Char) : List (Nat × List Char) :=
  (match cs with
   | c1 :: c2 :: r =>
     (if c1 = '1' && ('0' ≤ c2 && c2 ≤ '2') then [(10 + dval c2, r)] else [])
     ++ (if c1 = '0' && ('1' ≤ c2 && c2 ≤ '9') then [(dval c2, r)] else [])
     ++ (if '1' ≤ c1 && c1 ≤ '9' then [(dval c1, c2 :: r)] else [])
   | [c1] =>
     if '1' ≤ c1 && c1 ≤ '9' then [(dval c1, [])] else []
   | [] => [])

/-- Candidate matches of the `%H` regex alternatives, in regex order. -/
def hourCands (cs : List Char) : List (Nat × List Char) :=
  (match cs with
   | c1 :: c2 :: r =>
     (if c1 = '2' && ('0' ≤ c2 && c2 ≤ '3') then [(20 + dval c2, r)] else [])
     ++ (if (c1 = '0' || c1 = '1') && c2.isDigit then [(10 * dval c1 + dval c2, r)] else [])
     ++ (if c1.isDigit then [(dval c1, c2 :: r)] else [])
   | [c1] =>
     if c1.isDigit then [(dval c1, [])] else []
   | [] => [])

/-- Candidate matches of the `%M` regex alternatives, in regex order. -/
def minuteCands (cs : List Char) : List (Nat × List Char) :=
  (match cs with
   | c1 :: c2 :: r =>
     (if ('0' ≤ c1 && c1 ≤ '5') && c2.isDigit then [(10 * dval c1 + dval c2, r)] else [])
     ++ (if c1.isDigit then [(dval c1, c2 :: r)] else [])
   | [c1] =>
     if c1.isDigit then [(dval c1, [])] else []
   | [] => [])

/-- Regex `%Y`: exactly four digits. -/
def year4 (cs : List Char) : Option (Nat × List Char) :=
  match cs with
  | y1 :: y2 :: y3 :: y4 :: r =>
    if y1.isDigit && y2.isDigit && y3.isDigit && y4.isDigit then
      some (1000 * dval y1 + 100 * dval y2 + 10 * dval y3 + dval y4, r)
    else none
  | _ => none

/-- Regex backtracking over an alternative list: first candidate whose
continuation succeeds. -/
def tryCands {α : Type} (cands : List (Nat × List Char)) (k : Nat → List Char → Option α) :
    Option α :=
  match cands with
  | [] => none
  | (v, r) :: rest =>
    match k v r with
    | some x => some x
    | none => tryCands rest k

/-- The whole `strptime(_, "%d/%m/%Y %H:%M")` pattern match, returning
`(day, month, year, hour, minute)`. -/
def strptimeDMYHM (cs : List Char) : Option (Nat × Nat × Nat × Nat × Nat) :=
  tryCands (dayCands cs) fun d r1 =>
    match r1 with
    | '/' :: r2 =>
      tryCands (monthCands r2) fun m r3 =>
        match r3 with
        | '/' :: r4 =>
          match year4 r4 with
          | some (y, r5) =>
            let ws := r5.takeWhile pyIsSpace
            let r6 := r5.dropWhile pyIsSpace
            if ws.isEmpty then none
            else
              tryCands (hourCands r6) fun h r7 =>
                match r7 with
                | ':' :: r8 =>
                  tryCands (minuteCands r8) fun mi r9 =>
                    if r9.isEmpty then some (d, m, y, h, mi) else none
                | _ => none
          | none => none
        | _ => none
    | _ => none

/-- Days in a month of the (proleptic) Gregorian calendar, as used by
Python's `datetime`. -/
def daysInMonth (m y : Nat) : Nat :=
  if m = 2 then
    if y % 4 = 0 && (y % 100 ≠ 0 || y % 400 = 0) then 29 else 28
  else if m = 4 || m = 6 || m = 9 || m = 11 then 30
  else 31

/-- Model of `parse_custom_datetime` (src/app.py): `strptime` succeeds and the field
values form a constructible `datetime` (year ≥ 1, day exists in month).
Returns `(day, month, year, hour, minute)`; the timezone attach does not
affect acceptance. -/
def parse_custom_datetime (s : String) : Option (Nat × Nat × Nat × Nat × Nat) :=
  match strptimeDMYHM s.data with
  | some (d, m, y, h, mi) =>
    if 1 ≤ y && d ≤ daysInMonth m y then some (d, m, y, h, mi) else none
  | none => none

/-- The exact shape claimed by the spec: `DD/MM/YYYY HH:MM`, every field
zero-padded to a fixed width, 24-hour clock, valid calendar date.  (Spec-side
definition, used to compare the claim against the code's parser.) -/
def strictDDMMYYYYHHMM (s : String) : Bool :=
  match s.data with
  | [d1, d2, s1, m1, m2, s2, y1, y2, y3, y4, sp, h1, h2, co, n1, n2] =>
    s1 = '/' && s2 = '/' && sp = ' ' && co = ':' &&
    d1.isDigit && d2.isDigit && m1.isDigit && m2.isDigit &&
    y1.isDigit && y2.isDigit && y3.isDigit && y4.isDigit &&
    h1.isDigit && h2.isDigit && n1.isDigit && n2.isDigit &&
    (let d := 10 * dval d1 + dval d2
     let m := 10 * dval m1 + dval m2
     let y := 1000 * dval y1 + 100 * dval y2 + 10 * dval y3 + dval y4
     let h := 10 * dval h1 + dval h2
     let mi := 10 * dval n1 + dval n2
     1 ≤ d && 1 ≤ m && m ≤ 12 && 1 ≤ y && h ≤ 23 && mi ≤ 59 && d ≤ daysInMonth m y)
  | _ => false

/-! ## Reminder records and the sheet repository (src/sheets_repo.py)

A `Reminder` row.  `due_at` is modelled as an `Int` instant (only comparison
matters to the code); the store is the worksheet's row list in its native
order. -/

structure Reminder where
  reminderId : String
  sourceType : String := "manual"
  gmailMessageId : Option String := none
  subject : Option String := none
  sender : Option String := none
  recipient : Option String := none
  description : Option String := none
  telegramChatId : Int := 0
  dueAt : Int := 0
  status : String := "pending"
deriving Repr, DecidableEq

/-- Model of `ReminderSheetRepository.get_due_reminders` (src/sheets_repo.py 202-213):
the for-loop appending rows with `status == "pending" and due_at <= now`. -/
def get_due_reminders (now : Int) : List Reminder → List Reminder
  | [] => []
  | r :: rest =>
    if r.status = "pending" && r.dueAt ≤ now then r :: get_due_reminders now rest
    else get_due_reminders now rest

/-- Model of `ReminderSheetRepository.update_reminder_status` (src/sheets_repo.py
250-264): update the first row matching `reminder_id`; report found-ness. -/
def update_reminder_status (store : List Reminder) (id st : String) :
    List Reminder × Bool :=
  match store with
  | [] => ([], false)
  | r :: rest =>
    if r.reminderId = id then ({r with status := st} :: rest, true)
    else
      let (rest', b) := update_reminder_status rest id st
      (r :: rest', b)

/-! ## `dispatch_due_reminders` (src/app.py 1673-1774)

The send and the status-update call can each fail; `sendOk id` tells whether
`bot.send_message` succeeds for the reminder with that id, and `updExn id`
whether `repo.update_reminder_status` raises.  A raised update is caught and
logged; a failed send skips the status update entirely. -/

def dispatchLoop (sendOk updExn : String → Bool) :
    List Reminder → List Reminder → Nat → List Reminder × Nat
  | [], store, n => (store, n)
  | r :: rest, store, n =>
    if sendOk r.reminderId then
      let store' :=
        if updExn r.reminderId then store
        else (update_reminder_status store r.reminderId "notified").1
      dispatchLoop sendOk updExn rest store' (n + 1)
    else
      dispatchLoop sendOk updExn rest store n

/-- The dispatch endpoint body (bot and repo configured): fetch the due
snapshot once, then notify each in order.  Returns the final store and the
`dispatched` count of the JSON response. -/
def dispatch_due_reminders (sendOk updExn : String → Bool) (now : Int)
    (store : List Reminder) : List Reminder × Nat :=
  dispatchLoop sendOk updExn (get_due_reminders now store) store 0

/-- First row with the given reminder id, as `update_reminder_status` and
`delete_reminder` locate rows. -/
def findRem (store : List Reminder) (id : String) : Option Reminder :=
  store.find? (fun r => r.reminderId = id)

/-! ## `GmailClient.list_new_message_ids_since` (src/gmail_client.py 230-314)

The provider is modelled as the sequence of responses the paginated
`history.list` would serve: each element is either a page, an `HttpError`
raised by `execute()` (caught inside the method), or another exception
(which propagates to the caller).  The loop ends when the response sequence
is exhausted (no `nextPageToken`). -/

structure GMsgAdded where
  id : Option String := none
  labelIds : List String := []
deriving Repr, DecidableEq

structure GHistRecord where
  id : Option String := none
  messagesAdded : List GMsgAdded := []
deriving Repr, DecidableEq

structure GPage where
  history : List GHistRecord := []
  historyId : Option String := none
deriving Repr, DecidableEq

inductive GPageFetch where
  | page (p : GPage)
  | httpErr
  | exn
deriving Repr, DecidableEq

/-- Process one `messagesAdded` entry: skip absent/empty ids, keep ids whose
labels intersect the tracked labels, adding each id at most once. -/
def addMsg (labels : List String) (acc : List String) (ma : GMsgAdded) : List String :=
  match ma.id with
  | none => acc
  | some mid =>
    if mid = "" then acc
    else if ma.labelIds.any (fun l => labels.contains l) then
      if acc.contains mid then acc else acc ++ [mid]
    else acc

/-- Process one history record: first take its `id` as the latest checkpoint
observed (keeping the previous when absent), then collect its additions. -/
def addRecord (labels : List String) (al : List String × Option String)
    (hr : GHistRecord) : List String × Option String :=
  let latest := match hr.id with
                | some i => some i
                | none => al.2
  (hr.messagesAdded.foldl (addMsg labels) al.1, latest)

/-- Process one page: fold its records, then let the page's top-level
`historyId` (when present) override the latest checkpoint observed. -/
def addPage (labels : List String) (al : List String × Option String)
    (p : GPage) : List String × Option String :=
  let al' := p.history.foldl (addRecord labels) al
  (al'.1, match p.historyId with
          | some h => some h
          | none => al'.2)

/-- Outcome of the pagination while-loop. -/
inductive PagOut where
  | done (ids : List String) (latest : Option String)
  | http
  | raised
deriving Repr, DecidableEq

def goPages (labels : List String) :
    List GPageFetch → List String → Option String → PagOut
  | [], acc, latest => .done acc latest
  | .page p :: rest, acc, latest =>
    let al := addPage labels (acc, latest) p
    goPages labels rest al.1 al.2
  | .httpErr :: _, _, _ => .http
  | .exn :: _, _, _ => .raised

/-- Lexicographic-by-code-point `≤` on char lists, as Python compares
strings. -/
def listLeB : List Char → List Char → Bool
  | [], _ => true
  | _ :: _, [] => false
  | a :: as, b :: bs =>
    if a = b then listLeB as bs else decide (a.toNat < b.toNat)

/-- String comparison used to model Python `sorted` on string ids
(lexicographic by code point). -/
def strLeB (a b : String) : Bool := listLeB a.data b.data

/-- The order Python `sorted` uses on string ids, as a `Prop` relation. -/
def pyStrLe (a b : String) : Prop := strLeB a b = true

instance : DecidableRel pyStrLe := fun a b => instDecidableEqBool (strLeB a b) true

/-- Model of `list_new_message_ids_since`: `.error ()` models an exception reaching
the caller; `.ok` carries `(sorted unique ids, latest_history_id)`.  On a
caught `HttpError` the code returns `([], start_history_id)`. -/
def list_new_message_ids_since (pages : List GPageFetch)
    (startHistoryId : Option String) (labelIds : Option (List String) := none) :
    Except Unit (List String × Option String) :=
  let labels := labelIds.getD ["INBOX"]
  match startHistoryId with
  | none => .ok ([], none)
  | some start =>
    match goPages labels pages [] none with
    | .done acc latest => .ok (List.insertionSort pyStrLe acc, latest)
    | .http => .ok ([], some start)
    | .raised => .error ()

/-! Spec-side observables for C3: the checkpoint values observed while
paginating (each record's `id` in order, then the page's top-level
`historyId`), and their numeric maximum. -/

def observedOfPage (p : GPage) : List String :=
  (p.history.filterMap (fun hr => hr.id)) ++ (match p.historyId with
                                              | some h => [h]
                                              | none => [])

def observedCheckpoints : List GPageFetch → List String
  | [] => []
  | .page p :: rest => observedOfPage p ++ observedCheckpoints rest
  | _ => []

/-- Numeric value of a decimal history-id string (0 when not a numeral). -/
def histVal (s : String) : Nat :=
  if s.data.all Char.isDigit && !s.data.isEmpty then
    s.data.foldl (fun n c => n * 10 + dval c) 0
  else 0

/-- The maximum (highest-valued) checkpoint among those observed. -/
def maxObserved (pages : List GPageFetch) : Option String :=
  (observedCheckpoints pages).foldl
    (fun best h => match best with
                   | none => some h
                   | some b => if histVal b < histVal h then some h else some b)
    none

/-! ## `load_settings` (src/config.py 92-122) -/

/-- Python truthiness of an optional string. -/
def truthy (o : Option String) : Bool :=
  match o with
  | none => false
  | some s => !s.isEmpty

/-- Normalise `\r\n` and `\r` line endings to `\n` (src/config.py line 32),
then split into lines. -/
def normLines (s : String) : List String :=
  ((s.data.foldr
      (fun c acc => match c, acc with
                    | '\r', '\n' :: rest => '\n' :: rest
                    | '\r', rest => '\n' :: rest
                    | c, rest => c :: rest)
      []).foldr
      (fun c acc => match c, acc with
                    | '\n', _ => [] :: acc
                    | c, h :: t => (c :: h) :: t
                    | c, [] => [[c]])
      [[]]).map (fun l => String.mk l)

/-- Model of `parse_allowed_sender_emails` (src/config.py 12-68): strip each line,
skip blanks, casefold, keep lines with an `@` and no inner space, dedup
preserving first occurrence; raise if nothing valid remains. -/
def parse_allowed_sender_emails (raw : Option String) : Except String (List String) :=
  if !truthy raw then .ok []
  else
    let lines := normLines (raw.getD "")
    let allowed := lines.foldl
      (fun acc line =>
        let email := pyStrip line
        if email.isEmpty then acc
        else
          let email := pyLower email
          if !(email.data.contains '@') || email.data.contains ' ' then acc
          else if acc.contains email then acc
          else acc ++ [email])
      []
    if allowed.isEmpty then .error "ALLOWED_SENDER_EMAILS produced an empty allowlist"
    else .ok allowed

/-- The settings fields the sender filter touches. -/
structure SenderSettings where
  targetSenderEmail : Option String
  allowedSenderEmails : List String
deriving Repr, DecidableEq

/-- Model of `load_settings` restricted to the sender configuration (the other
environment variables do not interact with it). -/
def load_settings (allowedRaw targetRaw : Option String) : Except String SenderSettings :=
  match (if truthy allowedRaw then parse_allowed_sender_emails allowedRaw else .ok []) with
  | .error e => .error e
  | .ok allowed₀ =>
    match (if allowed₀.isEmpty && truthy targetRaw
           then parse_allowed_sender_emails targetRaw else .ok allowed₀) with
    | .error e => .error e
    | .ok allowed =>
      if allowed.isEmpty then .error "No allowed sender emails configured"
      else .ok { targetSenderEmail := targetRaw, allowedSenderEmails := allowed }

/-! ## `gmail_webhook` (src/app.py 1446-1671) -/

/-- The decoded Pub/Sub envelope: missing `data` field, undecodable data, or
a decoded `{emailAddress, historyId}` notification. -/
inductive PubSubEnvelope where
  | noData
  | badData
  | signal (emailAddress : Option String) (historyId : Option String)
deriving Repr, DecidableEq

/-- Metadata returned by `GmailClient.get_message_metadata`. -/
structure GMeta where
  fromH : Option String := none
  subject : Option String := none
  originalRecipient : Option String := none
deriving Repr, DecidableEq

structure GmailCfg where
  gmailPresent : Bool := true
  botPresent : Bool := true
  repoPresent : Bool := true
  telegramUserId : Option Int := some 1
  targetSenderEmail : Option String := none
deriving Repr, DecidableEq

/-- Checkpoint state: the in-memory `app.config["LAST_HISTORY_ID"]` and the
value persisted in the sheet's Config tab. -/
structure CkptState where
  lastHistoryId : Option String := none
  persisted : Option String := none
deriving Repr, DecidableEq

structure GWResult where
  status : Nat
  okField : Bool
  errorPresent : Bool
  mode : Option String := none
  newMessageIds : List String := []
  queried : Bool := false
  raised : Bool := false
  matched : List String := []
  dispatched : Nat := 0
  ckpt : CkptState
deriving Repr, DecidableEq

/-- The metadata-fetch-and-sender-filter loop (src/app.py 1572-1609).
`.error ()` models the `AttributeError` from
`settings.target_sender_email.lower()` when the target is `None`, which
nothing in the handler catches. -/
def filterLoop (target : Option String) (meta : String → Except Unit GMeta) :
    List String → Except Unit (List String)
  | [] => .ok []
  | mid :: rest =>
    match meta mid with
    | .error _ => filterLoop target meta rest
    | .ok m =>
      let fromHeader := m.fromH.getD ""
      match target with
      | none => .error ()
      | some t =>
        if pyInStr (pyLower t) (pyLower fromHeader) then
          match filterLoop target meta rest with
          | .ok l => .ok (mid :: l)
          | .error e => .error e
        else filterLoop target meta rest

/-- Model of `gmail_webhook`.  Oracles: `pages` is the provider's paginated history
response, `meta` the per-message metadata call, `sendOk` whether the
Telegram send for a matched message succeeds, `writeOk` whether persisting
the checkpoint to the Config sheet succeeds (a failed write is caught). -/
def gmail_webhook (cfg : GmailCfg) (st : CkptState) (env : PubSubEnvelope)
    (pages : List GPageFetch) (meta : String → Except Unit GMeta)
    (sendOk : String → Bool) (writeOk : Bool) : GWResult :=
  if !cfg.gmailPresent then
    { status := 200, okField := false, errorPresent := true, ckpt := st }
  else
    match env with
    | .noData => { status := 200, okField := true, errorPresent := false, ckpt := st }
    | .badData => { status := 200, okField := false, errorPresent := true, ckpt := st }
    | .signal _ historyId =>
      match st.lastHistoryId with
      | none =>
        -- bootstrap: adopt the pushed historyId, no history.list call
        let persisted' :=
          if cfg.repoPresent && historyId.isSome && writeOk then historyId
          else st.persisted
        { status := 200, okField := true, errorPresent := false,
          mode := some "bootstrap", queried := false,
          ckpt := { lastHistoryId := historyId, persisted := persisted' } }
      | some lastH =>
        match list_new_message_ids_since pages (some lastH) with
        | .error _ =>
          -- exception from the history listing: report, do not touch the checkpoint
          { status := 200, okField := false, errorPresent := true,
            mode := some "history", queried := true, ckpt := st }
        | .ok (newIds, latest) =>
          let doUpdate := latest.isSome && latest ≠ some lastH
          let ckpt' : CkptState :=
            if doUpdate then
              { lastHistoryId := latest,
                persisted := if cfg.repoPresent && writeOk then latest else st.persisted }
            else st
          match filterLoop cfg.targetSenderEmail meta newIds with
          | .error _ =>
            -- AttributeError escapes the handler: transport turns it into a 500
            { status := 500, okField := false, errorPresent := false,
              mode := some "history", newMessageIds := newIds, queried := true,
              raised := true, ckpt := ckpt' }
          | .ok matchedIds =>
            let dispatched :=
              if cfg.botPresent && cfg.telegramUserId.isSome then
                (matchedIds.filter sendOk).length
              else 0
            { status := 200, okField := true, errorPresent := false,
              mode := some "history", newMessageIds := newIds, queried := true,
              matched := matchedIds, dispatched := dispatched, ckpt := ckpt' }

/-! ## `telegram_webhook` (src/app.py 114-1176)

The two module-level per-chat dictionaries `manual_new_state` and
`custom_datetime_state` are modelled as maps `Int → Option _`.  Collaborator
calls are oracles: `createOk` (does `repo.create_reminder` succeed),
`updDue` / `delRes` (result or exception of the due-date update / delete),
`meta` (Gmail metadata fetch), `sentMessageId` (the `message_id` Telegram
assigns to a sent prompt), `sendOk` (does a reached `bot.send_message` call
succeed).  `TelegramBot.send_message` re-raises on failure
(src/telegram_bot.py 40-49) and no call site in this handler wraps it in a
try, so a failing send propagates out of the Flask view and the transport
answers 500: the model records each send call it reaches in `sent` and, when
the oracle says the call raises, stops right there via `trySend`, keeping
the dictionaries as they are at the call site (mutations written after the
send in the source do not happen).  `bot.edit_message_text` and
`answer_callback_query` catch internally (src/telegram_bot.py) and are
recorded as effects. -/

/-- An entry of `manual_new_state`. -/
structure ManualState where
  stage : String
  description : String := ""
deriving Repr, DecidableEq

/-- An entry of `custom_datetime_state`. -/
structure CustomState where
  mode : String
  description : String := ""
  gmailMessageId : Option String := none
  reminderId : Option String := none
  originalChatId : Int := 0
  originalMessageId : Option Int := none
  originalText : String := ""
  promptMessageId : Option Int := none
  promptChatId : Option Int := none
deriving Repr, DecidableEq

structure ChatStates where
  manual : Int → Option ManualState
  custom : Int → Option CustomState

def setManual (st : ChatStates) (c : Int) (v : Option ManualState) : ChatStates :=
  { st with manual := fun k => if k = c then v else st.manual k }

def setCustom (st : ChatStates) (c : Int) (v : Option CustomState) : ChatStates :=
  { st with custom := fun k => if k = c then v else st.custom k }

/-- A Telegram update: a text message, a callback query (button press), or
any other update kind. -/
inductive TgUpdate where
  | message (chatId : Option Int) (fromId : Option Int) (text : Option String)
  | callback (chatId : Option Int) (fromId : Option Int) (dataStr : Option String)
      (messageId : Option Int) (cbId : Option String) (msgText : Option String)
  | other
deriving Repr

/-- Model of `TelegramBot.is_allowed_user` (src/telegram_bot.py 69-88). -/
def is_allowed_user (allowed : Option Int) (upd : TgUpdate) : Bool :=
  match allowed with
  | none => true
  | some a =>
    match upd with
    | .message _ fromId _ => fromId = some a
    | .callback _ fromId _ _ _ _ => fromId = some a
    | .other => false

structure TgCfg where
  botPresent : Bool := true
  telegramUserId : Option Int := none
  repoPresent : Bool := true
  gmailPresent : Bool := true
  now : Int := 0
deriving Repr, DecidableEq

structure TgOracles where
  createOk : Bool := true
  updDue : Except Unit Bool := .ok true
  delRes : Except Unit Bool := .ok true
  meta : Except Unit GMeta := .ok {}
  sentMessageId : Option Int := some 99
  newId : String := "uuid"
  sendOk : Bool := true
deriving Repr

structure TgResult where
  status : Nat
  body : String := ""
  manual : Int → Option ManualState
  custom : Int → Option CustomState
  sent : List (Int × String) := []
  acks : List (String × Bool) := []
  edits : List (Int × Int × String) := []
  created : List Reminder := []

def mkRes (st : ChatStates) : TgResult :=
  { status := 200, manual := st.manual, custom := st.custom }

/-- Model of `offset_key_to_delta` (src/app.py 145-154), in seconds. -/
def offset_key_to_delta (key : String) : Option Int :=
  if key = "1h" then some 3600
  else if key = "1d" then some 86400
  else if key = "3d" then some (3 * 86400)
  else if key = "1w" then some (7 * 86400)
  else none

/-- Injective encoding of a parsed `(day, month, year, hour, minute)` as an
instant, standing in for the aware `datetime` value. -/
def encodeDT (t : Nat × Nat × Nat × Nat × Nat) : Int :=
  ((((t.2.2.1 * 13 + t.2.1) * 32 + t.1) * 24 + t.2.2.2.1) * 60 + t.2.2.2.2 : Nat)

def invalidFormatText : String :=
  "Invalid format. Please use DD/MM/YYYY HH:MM (e.g. 25/12/2025 14:30)."

/-- Append an `answer_callback_query` effect when a callback id is present
(every call in the handler is guarded by `if callback_query_id:`). -/
def ackIf (cbId : Option String) (t : String) (alert : Bool) : List (String × Bool) :=
  if cbId.isSome then [(t, alert)] else []

/-- Model of an uncaught `bot.send_message` call: the wrapper re-raises on
failure (src/telegram_bot.py 40-49) and the view has no surrounding try, so
the exception propagates and the transport answers 500.  `atCall` is the
handler result as it stands at the moment of the call — the dictionaries as
mutated so far and the effects already performed, the send call just
recorded included; `k` is the result of the rest of the handler when the
call succeeds. -/
def trySend (orc : TgOracles) (atCall k : TgResult) : TgResult :=
  if orc.sendOk then k
  else { atCall with status := 500, body := "Internal Server Error" }

/-- Message branch, step 0: this chat awaits a custom datetime
(src/app.py 178-463). -/
def handleCustomText (cfg : TgCfg) (orc : TgOracles) (st : ChatStates)
    (c : Int) (text : String) (sc : CustomState) : TgResult :=
  match parse_custom_datetime text with
  | none =>
    trySend orc { mkRes st with sent := [(c, invalidFormatText)] }
      { mkRes st with sent := [(c, invalidFormatText)] }
  | some dt =>
    let due := encodeDT dt
    let stPop := setCustom st c none
    if sc.mode = "manual" then
      if !cfg.repoPresent then
        trySend orc
          { mkRes st with sent := [(c, "Storage not configured; could not save reminder.")] }
          { mkRes stPop with sent := [(c, "Storage not configured; could not save reminder.")] }
      else
        let rem : Reminder :=
          { reminderId := orc.newId, sourceType := "manual",
            description := some sc.description,
            telegramChatId := cfg.telegramUserId.getD sc.originalChatId,
            dueAt := due, status := "pending" }
        if !orc.createOk then
          trySend orc { mkRes st with sent := [(c, "Failed to save reminder.")] }
            { mkRes stPop with sent := [(c, "Failed to save reminder.")] }
        else
          let confirmation := "✅ Reminder created."
          match sc.originalMessageId with
          | some mid =>
            let r1 := { mkRes stPop with
                        created := [rem], edits := [(sc.originalChatId, mid, confirmation)] }
            match sc.promptMessageId with
            | some pid =>
              { r1 with edits := r1.edits ++ [(sc.promptChatId.getD c, pid, "✅ Custom date received.")] }
            | none => r1
          | none =>
            let r1 := { mkRes stPop with
                        created := [rem], sent := [(sc.originalChatId, confirmation)] }
            let k :=
              match sc.promptMessageId with
              | some pid =>
                { r1 with edits := r1.edits ++ [(sc.promptChatId.getD c, pid, "✅ Custom date received.")] }
              | none => r1
            trySend orc
              { mkRes st with created := [rem], sent := [(sc.originalChatId, confirmation)] } k
    else if sc.mode = "email" then
      if !cfg.repoPresent || !cfg.gmailPresent then
        trySend orc
          { mkRes st with
            sent := [(c, "Storage or email access not configured; could not save reminder.")] }
          { mkRes stPop with
            sent := [(c, "Storage or email access not configured; could not save reminder.")] }
      else
        match orc.meta with
        | .error _ =>
          trySend orc
            { mkRes st with sent := [(c, "Failed to read email metadata; reminder not created.")] }
            { mkRes stPop with sent := [(c, "Failed to read email metadata; reminder not created.")] }
        | .ok m =>
          let rem : Reminder :=
            { reminderId := orc.newId, sourceType := "email",
              gmailMessageId := sc.gmailMessageId,
              subject := m.subject, sender := m.fromH,
              recipient := (match m.originalRecipient with
                            | some r => some r
                            | none => none),
              telegramChatId := cfg.telegramUserId.getD sc.originalChatId,
              dueAt := due, status := "pending" }
          if !orc.createOk then
            trySend orc { mkRes st with sent := [(c, "Failed to save email reminder.")] }
              { mkRes stPop with sent := [(c, "Failed to save email reminder.")] }
          else
            let newText := sc.originalText ++ "\n\n✅ Reminder created."
            match sc.originalMessageId with
            | some mid =>
              let r1 := { mkRes stPop with
                          created := [rem], edits := [(sc.originalChatId, mid, newText)] }
              match sc.promptMessageId with
              | some pid =>
                { r1 with edits :=
                    r1.edits ++ [(sc.promptChatId.getD c, pid, "✅ Custom date received for this email.")] }
              | none => r1
            | none =>
              let r1 := { mkRes stPop with
                          created := [rem], sent := [(sc.originalChatId, newText)] }
              let k :=
                match sc.promptMessageId with
                | some pid =>
                  { r1 with edits :=
                      r1.edits ++ [(sc.promptChatId.getD c, pid, "✅ Custom date received for this email.")] }
                | none => r1
              trySend orc
                { mkRes st with created := [rem], sent := [(sc.originalChatId, newText)] } k
    else if sc.mode = "snooze" then
      if !cfg.repoPresent then
        trySend orc
          { mkRes st with sent := [(c, "Storage not configured; could not snooze reminder.")] }
          { mkRes stPop with sent := [(c, "Storage not configured; could not snooze reminder.")] }
      else
        match orc.updDue with
        | .error _ =>
          trySend orc { mkRes st with sent := [(c, "Failed to snooze reminder.")] }
            { mkRes stPop with sent := [(c, "Failed to snooze reminder.")] }
        | .ok false =>
          trySend orc { mkRes st with sent := [(c, "Reminder not found.")] }
            { mkRes stPop with sent := [(c, "Reminder not found.")] }
        | .ok true =>
          let newText := sc.originalText ++ "\n\n⏰ Snoozed."
          match sc.originalMessageId with
          | some mid =>
            let r1 := { mkRes stPop with edits := [(sc.originalChatId, mid, newText)] }
            match sc.promptMessageId with
            | some pid =>
              { r1 with edits :=
                  r1.edits ++ [(sc.promptChatId.getD c, pid, "✅ Custom date received. Reminder snoozed.")] }
            | none => r1
          | none =>
            let r1 := { mkRes stPop with sent := [(sc.originalChatId, newText)] }
            let k :=
              match sc.promptMessageId with
              | some pid =>
                { r1 with edits :=
                    r1.edits ++ [(sc.promptChatId.getD c, pid, "✅ Custom date received. Reminder snoozed.")] }
              | none => r1
            trySend orc { mkRes st with sent := [(sc.originalChatId, newText)] } k
    else
      mkRes stPop

/-- Message branch of the webhook (src/app.py 169-509). -/
def handleMessage (cfg : TgCfg) (orc : TgOracles) (st : ChatStates)
    (chatId : Option Int) (text? : Option String) : TgResult :=
  match chatId with
  | none => mkRes st
  | some c =>
    let text := pyStrip (text?.getD "")
    match st.custom c with
    | some sc => handleCustomText cfg orc st c text sc
    | none =>
      if text = "/start" then
        let r := { mkRes st with
                   sent := [(c, "Hello! This is your Email → Telegram reminder bot.")] }
        trySend orc r r
      else if text = "/new" then
        let r := { mkRes (setManual st c (some { stage := "awaiting_description" })) with
                   sent := [(c, "What should I remind you about?")] }
        trySend orc r r
      else
        match st.manual c with
        | some ms =>
          if ms.stage = "awaiting_description" then
            if text = "" then
              let r := { mkRes st with
                         sent := [(c, "Please send a short description for the reminder.")] }
              trySend orc r r
            else
              let r := { mkRes (setManual st c
                           (some { stage := "awaiting_offset", description := text })) with
                         sent := [(c, "When should I remind you?")] }
              trySend orc r r
          else mkRes st
        | none => mkRes st

/-- After sending a custom-datetime prompt, record its `message_id` into the
freshly seeded `custom_datetime_state` entry (src/app.py 626-641 and the two
analogous blocks). -/
def capturePrompt (orc : TgOracles) (st : ChatStates) (c : Int) : ChatStates :=
  match orc.sentMessageId with
  | none => st
  | some pid =>
    match st.custom c with
    | none =>
      setCustom st c (some { mode := "", promptMessageId := some pid, promptChatId := some c })
    | some sc =>
      setCustom st c (some { sc with promptMessageId := some pid, promptChatId := some c })

/-- The `custom_cancel:` branch (src/app.py 532-564). -/
def handleCustomCancel (st : ChatStates) (c : Int) (messageId : Option Int)
    (cbId : Option String) : TgResult :=
  let popped := st.custom c
  let st1 := setCustom st c none
  let st2 :=
    match popped with
    | some sc =>
      if sc.mode = "manual" then
        setManual st1 c (some { stage := "awaiting_offset", description := sc.description })
      else st1
    | none => st1
  let r := { mkRes st2 with acks := ackIf cbId "Custom date entry cancelled." false }
  match messageId with
  | some mid => { r with edits := [(c, mid, "Custom date entry cancelled.")] }
  | none => r

/-- The `manual_offset:` branch (src/app.py 566-712). -/
def handleManualOffset (cfg : TgCfg) (orc : TgOracles) (st : ChatStates)
    (c : Int) (data : String) (messageId : Option Int) (cbId : Option String) : TgResult :=
  if !cfg.repoPresent then
    { mkRes st with acks := ackIf cbId "Storage not configured." true }
  else
    match st.manual c with
    | none => { mkRes st with acks := ackIf cbId "No pending reminder." false }
    | some ms =>
      if ms.stage ≠ "awaiting_offset" then
        { mkRes st with acks := ackIf cbId "No pending reminder." false }
      else
        let description := ms.description
        let offsetKey := String.mk ((pySplit1 ':' data.data).getD 1 [])
        if offsetKey = "custom" then
          let st1 := setCustom st c (some
            { mode := "manual", description := description,
              originalChatId := c, originalMessageId := messageId })
          let st2 := setManual st1 c none
          let promptText :=
            "Please type the date and time in DD/MM/YYYY HH:MM (e.g. 25/12/2025 14:30)."
          trySend orc
            { mkRes st2 with
              acks := ackIf cbId "Send a custom date/time." false,
              sent := [(c, promptText)] }
            { mkRes (capturePrompt orc st2 c) with
              acks := ackIf cbId "Send a custom date/time." false,
              sent := [(c, promptText)] }
        else
          match offset_key_to_delta offsetKey with
          | none => { mkRes st with acks := ackIf cbId "Unknown offset." false }
          | some delta =>
            let dueAt := cfg.now + delta
            let rem : Reminder :=
              { reminderId := orc.newId, sourceType := "manual",
                description := some description,
                telegramChatId := cfg.telegramUserId.getD c,
                dueAt := dueAt, status := "pending" }
            if !orc.createOk then
              { mkRes st with acks := ackIf cbId "Failed to save reminder." true }
            else
              let st1 := setManual st c none
              let r := { mkRes st1 with
                         created := [rem],
                         acks := ackIf cbId "Reminder created." false }
              match messageId with
              | some mid => { r with edits := [(c, mid, "✅ Reminder created.")] }
              | none =>
                trySend orc { r with sent := [(c, "✅ Reminder created.")] }
                  { r with sent := [(c, "✅ Reminder created.")] }

/-- The `email_action:` branch (src/app.py 714-791). -/
def handleEmailAction (orc : TgOracles) (st : ChatStates) (c : Int) (data : String)
    (messageId : Option Int) (cbId : Option String) (msgText : Option String) : TgResult :=
  let parts := pySplit2 ':' data.data
  if parts.length ≠ 3 then
    { mkRes st with acks := ackIf cbId "Invalid email action." false }
  else
    let action := String.mk (parts.getD 1 [])
    if action = "set" then
      let newText := (msgText.getD "New email") ++ "\n\nWhen should I remind you about this email?"
      let r := { mkRes st with acks := ackIf cbId "Choose when to be reminded." false }
      match messageId with
      | some mid => { r with edits := [(c, mid, newText)] }
      | none =>
        trySend orc { r with sent := [(c, "When should I remind you about this email?")] }
          { r with sent := [(c, "When should I remind you about this email?")] }
    else if action = "done" then
      let newText := (msgText.getD "New email") ++ "\n\n✅ Marked as done. No reminder created."
      let r := { mkRes st with acks := ackIf cbId "Marked as done. No reminder created." false }
      match messageId with
      | some mid => { r with edits := [(c, mid, newText)] }
      | none =>
        trySend orc { r with sent := [(c, "Okay, no reminder will be created for this email.")] }
          { r with sent := [(c, "Okay, no reminder will be created for this email.")] }
    else
      { mkRes st with acks := ackIf cbId "Unknown email action." false }

/-- The `email_offset:` branch (src/app.py 793-968). -/
def handleEmailOffset (cfg : TgCfg) (orc : TgOracles) (st : ChatStates)
    (c : Int) (data : String) (messageId : Option Int) (cbId : Option String)
    (msgText : Option String) : TgResult :=
  let parts := pySplit2 ':' data.data
  if parts.length ≠ 3 then
    { mkRes st with acks := ackIf cbId "Invalid email offset." false }
  else
    let gmailMessageId := String.mk (parts.getD 1 [])
    let offsetKey := String.mk (parts.getD 2 [])
    if !cfg.repoPresent then
      { mkRes st with acks := ackIf cbId "Storage not configured." true }
    else if !cfg.gmailPresent then
      { mkRes st with acks := ackIf cbId "Email access not configured." true }
    else if offsetKey = "custom" then
      let st1 := setCustom st c (some
        { mode := "email", gmailMessageId := some gmailMessageId,
          originalChatId := c, originalMessageId := messageId,
          originalText := msgText.getD "" })
      let promptText :=
        "Please type the date and time in DD/MM/YYYY HH:MM (e.g. 25/12/2025 14:30)."
      trySend orc
        { mkRes st1 with
          acks := ackIf cbId "Send a custom date/time." false,
          sent := [(c, promptText)] }
        { mkRes (capturePrompt orc st1 c) with
          acks := ackIf cbId "Send a custom date/time." false,
          sent := [(c, promptText)] }
    else
      match offset_key_to_delta offsetKey with
      | none => { mkRes st with acks := ackIf cbId "Unknown offset." false }
      | some delta =>
        match orc.meta with
        | .error _ =>
          { mkRes st with acks := ackIf cbId "Failed to read email metadata." true }
        | .ok m =>
          let rem : Reminder :=
            { reminderId := orc.newId, sourceType := "email",
              gmailMessageId := some gmailMessageId,
              subject := m.subject, sender := m.fromH,
              recipient := (match m.originalRecipient with
                            | some r => some r
                            | none => none),
              telegramChatId := cfg.telegramUserId.getD c,
              dueAt := cfg.now + delta, status := "pending" }
          if !orc.createOk then
            { mkRes st with acks := ackIf cbId "Failed to save reminder." true }
          else
            let r := { mkRes st with
                       created := [rem],
                       acks := ackIf cbId "Email reminder created." false }
            match messageId with
            | some mid => { r with edits := [(c, mid, (msgText.getD "") ++ "\n\n✅ Reminder created.")] }
            | none =>
              trySend orc { r with sent := [(c, "Reminder created.")] }
                { r with sent := [(c, "Reminder created.")] }

/-- The `reminder_extend:` branch (src/app.py 970-1105). -/
def handleReminderExtend (cfg : TgCfg) (orc : TgOracles) (st : ChatStates)
    (c : Int) (data : String) (messageId : Option Int) (cbId : Option String)
    (msgText : Option String) : TgResult :=
  let parts := pySplit2 ':' data.data
  if parts.length ≠ 3 then
    { mkRes st with acks := ackIf cbId "Invalid reminder extend action." false }
  else
    let reminderId := String.mk (parts.getD 1 [])
    let offsetKey := String.mk (parts.getD 2 [])
    if !cfg.repoPresent then
      { mkRes st with acks := ackIf cbId "Storage not configured." true }
    else if offsetKey = "custom" then
      let baseText := msgText.getD "Reminder"
      let st1 := setCustom st c (some
        { mode := "snooze", reminderId := some reminderId,
          originalChatId := c, originalMessageId := messageId,
          originalText := baseText })
      let promptText :=
        "Send a new date/time for this reminder in DD/MM/YYYY HH:MM (e.g. 25/12/2025 14:30)."
      trySend orc
        { mkRes st1 with
          acks := ackIf cbId "Send a custom date/time." false,
          sent := [(c, promptText)] }
        { mkRes (capturePrompt orc st1 c) with
          acks := ackIf cbId "Send a custom date/time." false,
          sent := [(c, promptText)] }
    else
      match offset_key_to_delta offsetKey with
      | none => { mkRes st with acks := ackIf cbId "Unknown offset." false }
      | some _delta =>
        match orc.updDue with
        | .error _ =>
          { mkRes st with acks := ackIf cbId "Failed to snooze reminder." true }
        | .ok false =>
          { mkRes st with acks := ackIf cbId "Reminder not found." false }
        | .ok true =>
          let r := { mkRes st with acks := ackIf cbId "Reminder snoozed." false }
          match messageId with
          | some mid =>
            { r with edits := [(c, mid, (msgText.getD "Reminder") ++ "\n\n⏰ Snoozed.")] }
          | none =>
            trySend orc { r with sent := [(c, "Reminder snoozed.")] }
              { r with sent := [(c, "Reminder snoozed.")] }

/-- The `reminder_complete:` branch (src/app.py 1107-1170). -/
def handleReminderComplete (cfg : TgCfg) (orc : TgOracles) (st : ChatStates)
    (c : Int) (data : String) (messageId : Option Int) (cbId : Option String)
    (msgText : Option String) : TgResult :=
  let parts := pySplit1 ':' data.data
  if parts.length ≠ 2 then
    { mkRes st with acks := ackIf cbId "Invalid complete action." false }
  else if !cfg.repoPresent then
    { mkRes st with acks := ackIf cbId "Storage not configured." true }
  else
    match orc.delRes with
    | .error _ =>
      { mkRes st with acks := ackIf cbId "Failed to delete reminder." true }
    | .ok deleted =>
      let r := { mkRes st with
                 acks := ackIf cbId
                   (if deleted then "Reminder completed." else "Reminder not found.") false }
      if !deleted then r
      else
        match messageId with
        | some mid =>
          { r with edits := [(c, mid, (msgText.getD "Reminder") ++ "\n\n✅ Reminder marked as complete and removed.")] }
        | none =>
          trySend orc { r with sent := [(c, "Reminder marked as complete and removed.")] }
            { r with sent := [(c, "Reminder marked as complete and removed.")] }

/-- Callback-query branch of the webhook (src/app.py 513-1173). -/
def handleCallback (cfg : TgCfg) (orc : TgOracles) (st : ChatStates)
    (chatId : Option Int) (dataStr : Option String) (messageId : Option Int)
    (cbId : Option String) (msgText : Option String) : TgResult :=
  let data := pyStrip (dataStr.getD "")
  match chatId with
  | none => { mkRes st with acks := ackIf cbId "No chat id" false }
  | some c =>
    if pyStartsWith data "custom_cancel:" then
      handleCustomCancel st c messageId cbId
    else if pyStartsWith data "manual_offset:" then
      handleManualOffset cfg orc st c data messageId cbId
    else if pyStartsWith data "email_action:" then
      handleEmailAction orc st c data messageId cbId msgText
    else if pyStartsWith data "email_offset:" then
      handleEmailOffset cfg orc st c data messageId cbId msgText
    else if pyStartsWith data "reminder_extend:" then
      handleReminderExtend cfg orc st c data messageId cbId msgText
    else if pyStartsWith data "reminder_complete:" then
      handleReminderComplete cfg orc st c data messageId cbId msgText
    else
      mkRes st

/-- Model of `telegram_webhook` (src/app.py 114-1176). -/
def telegram_webhook (cfg : TgCfg) (orc : TgOracles) (st : ChatStates)
    (upd : TgUpdate) : TgResult :=
  if !cfg.botPresent then
    { status := 500, body := "Telegram bot not configured",
      manual := st.manual, custom := st.custom }
  else if !is_allowed_user cfg.telegramUserId upd then
    mkRes st
  else
    match upd with
    | .message chatId _ text? => handleMessage cfg orc st chatId text?
    | .callback chatId _ dataStr messageId cbId msgText =>
      handleCallback cfg orc st chatId dataStr messageId cbId msgText
    | .other => mkRes st

/-! ## Lemmas about the dispatcher (C1) -/

/-- Ids of the due reminders that get marked `notified` in a dispatch pass:
send succeeded and the status update did not raise. -/
def dueMarkIds (sendOk updExn : String → Bool) (due : List Reminder) : List String :=
  (due.filter (fun r => sendOk r.reminderId && !updExn r.reminderId)).map
    (fun r => r.reminderId)

/-! ## Lemmas about the mail-sync pagination (C2, C3) -/

/-- Scan the provider response sequence for the first error entry:
`none` = error-free, `some false` = an `HttpError`, `some true` = another
exception. -/
def scanErr : List GPageFetch → Option Bool
  | [] => none
  | .page _ :: rest => scanErr rest
  | .httpErr :: _ => some false
  | .exn :: _ => some true

/-- Per-addition qualification test as the code performs it. -/
def maQual (labels : List String) (ma : GMsgAdded) (mid : String) : Prop :=
  ma.id = some mid ∧ mid ≠ "" ∧ ma.labelIds.any (fun l => labels.contains l) = true

/-- Qualification at the record level. -/
def hrQual (labels : List String) (hr : GHistRecord) (mid : String) : Prop :=
  ∃ ma ∈ hr.messagesAdded, maQual labels ma mid

/-- The last element of a sequence of observations, starting from a prior
value: each observation overwrites the running value. -/
def lastOpt (l : List String) (init : Option String) : Option String :=
  l.foldl (fun _ h => some h) init

/-! ## Verification

Theorems about the embedded program, settling the spec claims. -/

example : parse_custom_datetime "25/12/2025 14:30" = some (25, 12, 2025, 14, 30) := by decide

example : parse_custom_datetime "2025-12-25 14:30" = none := by decide

example : parse_custom_datetime "25/12/2025" = none := by decide

example : parse_custom_datetime "32/01/2025 10:00" = none := by decide

example : parse_custom_datetime "5/12/2025 14:30" = some (5, 12, 2025, 14, 30) := by decide

example : strictDDMMYYYYHHMM "5/12/2025 14:30" = false := by decide

example : strictDDMMYYYYHHMM "25/12/2025 14:30" = true := by decide

example : parse_custom_datetime "29/02/2025 10:00" = none := by decide

example : parse_custom_datetime "29/02/2024 10:00" = some (29, 2, 2024, 10, 0) := by decide

/-! Helper lemmas about the datetime parser. -/

theorem digit_cases (c : Char) (h : c.isDigit = true) :
    c = '0' ∨ c = '1' ∨ c = '2' ∨ c = '3' ∨ c = '4' ∨ c = '5' ∨ c = '6' ∨
    c = '7' ∨ c = '8' ∨ c = '9' := by
  simp only [Char.isDigit, ge_iff_le, Bool.and_eq_true, decide_eq_true_eq] at h
  obtain ⟨h1, h2⟩ := h
  have hn1 : 48 ≤ c.toNat := h1
  have hn2 : c.toNat ≤ 57 := h2
  have hc : Char.ofNat c.toNat = c := Char.ofNat_toNat c
  interval_cases h : c.toNat <;> rw [← hc] <;> decide

theorem pyIsSpace_digit (c : Char) (h : c.isDigit = true) : pyIsSpace c = false := by
  rcases digit_cases c h with rfl|rfl|rfl|rfl|rfl|rfl|rfl|rfl|rfl|rfl <;> decide

theorem tryCands_day {α : Type} (d1 d2 : Char) (r : List Char)
    (k : Nat → List Char → Option α) (x : α)
    (h1 : d1.isDigit = true) (h2 : d2.isDigit = true)
    (hlo : 1 ≤ 10 * dval d1 + dval d2) (hhi : 10 * dval d1 + dval d2 ≤ 31)
    (hk : k (10 * dval d1 + dval d2) r = some x) :
    tryCands (dayCands (d1 :: d2 :: r)) k = some x := by
  rcases digit_cases d1 h1 with rfl|rfl|rfl|rfl|rfl|rfl|rfl|rfl|rfl|rfl <;>
    rcases digit_cases d2 h2 with rfl|rfl|rfl|rfl|rfl|rfl|rfl|rfl|rfl|rfl <;>
    simp_all [dayCands, tryCands, dval]

theorem tryCands_month {α : Type} (m1 m2 : Char) (r : List Char)
    (k : Nat → List Char → Option α) (x : α)
    (h1 : m1.isDigit = true) (h2 : m2.isDigit = true)
    (hlo : 1 ≤ 10 * dval m1 + dval m2) (hhi : 10 * dval m1 + dval m2 ≤ 12)
    (hk : k (10 * dval m1 + dval m2) r = some x) :
    tryCands (monthCands (m1 :: m2 :: r)) k = some x := by
  rcases digit_cases m1 h1 with rfl|rfl|rfl|rfl|rfl|rfl|rfl|rfl|rfl|rfl <;>
    rcases digit_cases m2 h2 with rfl|rfl|rfl|rfl|rfl|rfl|rfl|rfl|rfl|rfl <;>
    simp_all [monthCands, tryCands, dval]

theorem tryCands_hour {α : Type} (h1c h2c : Char) (r : List Char)
    (k : Nat → List Char → Option α) (x : α)
    (h1 : h1c.isDigit = true) (h2 : h2c.isDigit = true)
    (hhi : 10 * dval h1c + dval h2c ≤ 23)
    (hk : k (10 * dval h1c + dval h2c) r = some x) :
    tryCands (hourCands (h1c :: h2c :: r)) k = some x := by
  rcases digit_cases h1c h1 with rfl|rfl|rfl|rfl|rfl|rfl|rfl|rfl|rfl|rfl <;>
    rcases digit_cases h2c h2 with rfl|rfl|rfl|rfl|rfl|rfl|rfl|rfl|rfl|rfl <;>
    simp_all [hourCands, tryCands, dval]

theorem tryCands_minute {α : Type} (n1 n2 : Char) (r : List Char)
    (k : Nat → List Char → Option α) (x : α)
    (h1 : n1.isDigit = true) (h2 : n2.isDigit = true)
    (hhi : 10 * dval n1 + dval n2 ≤ 59)
    (hk : k (10 * dval n1 + dval n2) r = some x) :
    tryCands (minuteCands (n1 :: n2 :: r)) k = some x := by
  rcases digit_cases n1 h1 with rfl|rfl|rfl|rfl|rfl|rfl|rfl|rfl|rfl|rfl <;>
    rcases digit_cases n2 h2 with rfl|rfl|rfl|rfl|rfl|rfl|rfl|rfl|rfl|rfl <;>
    simp_all [minuteCands, tryCands, dval]

theorem daysInMonth_le (m y : Nat) : daysInMonth m y ≤ 31 := by
  unfold daysInMonth
  split
  · split <;> omega
  · split <;> omega

/-- Every string of the exact `DD/MM/YYYY HH:MM` shape with a valid calendar
date is accepted by the code's parser. -/
theorem strict_accepted (s : String) (h : strictDDMMYYYYHHMM s = true) :
    (parse_custom_datetime s).isSome = true := by
  unfold strictDDMMYYYYHHMM at h
  split at h
  case h_2 => simp at h
  case h_1 d1 d2 s1 m1 m2 s2 y1 y2 y3 y4 sp h1c h2c co n1 n2 heq =>
    simp only [Bool.and_eq_true, decide_eq_true_eq, and_assoc] at h
    obtain ⟨hs1, hs2, hsp, hco, hd1, hd2, hm1, hm2, hy1, hy2, hy3, hy4,
      hh1, hh2, hn1, hn2, hD, hM1, hM2, hY, hH, hMI, hDM⟩ := h
    subst hs1 hs2 hsp hco
    have hstrp : strptimeDMYHM s.data =
        some (10 * dval d1 + dval d2, 10 * dval m1 + dval m2,
              1000 * dval y1 + 100 * dval y2 + 10 * dval y3 + dval y4,
              10 * dval h1c + dval h2c, 10 * dval n1 + dval n2) := by
      rw [heq]
      unfold strptimeDMYHM
      apply tryCands_day _ _ _ _ _ hd1 hd2 hD (le_trans hDM (daysInMonth_le _ _))
      simp only
      apply tryCands_month _ _ _ _ _ hm1 hm2 hM1 hM2
      simp only [year4, hy1, hy2, hy3, hy4, Bool.and_self, if_true]
      simp only [List.takeWhile, List.dropWhile, pyIsSpace_digit _ hh1]
      norm_num [pyIsSpace]
      apply tryCands_hour _ _ _ _ _ hh1 hh2 hH
      simp only
      apply tryCands_minute _ _ _ _ _ hn1 hn2 hMI
      simp
    unfold parse_custom_datetime
    rw [hstrp]
    simp [hY, hDM]

theorem char_toNat_inj (a b : Char) (h : a.toNat = b.toNat) : a = b := by
  have ha := Char.ofNat_toNat a
  have hb := Char.ofNat_toNat b
  rw [← ha, ← hb, h]

theorem listLeB_total : ∀ (a b : List Char), (listLeB a b || listLeB b a) = true := by
  intro a
  induction a with
  | nil => intro b; rfl
  | cons x xs ih =>
    intro b
    cases b with
    | nil => rfl
    | cons y ys =>
      unfold listLeB
      by_cases hxy : x = y
      · subst hxy
        simp only [if_pos rfl]
        exact ih ys
      · have hyx : ¬ y = x := fun h => hxy h.symm
        rw [if_neg hxy, if_neg hyx]
        have hne : x.toNat ≠ y.toNat := fun h => hxy (char_toNat_inj x y h)
        simp only [Bool.or_eq_true, decide_eq_true_eq]
        omega

theorem listLeB_trans : ∀ (a b c : List Char),
    listLeB a b = true → listLeB b c = true → listLeB a c = true := by
  intro a
  induction a with
  | nil => intro b c _ _; rfl
  | cons x xs ih =>
    intro b c hab hbc
    cases b with
    | nil => simp [listLeB] at hab
    | cons y ys =>
      cases c with
      | nil => simp [listLeB] at hbc
      | cons z zs =>
        unfold listLeB at hab hbc ⊢
        by_cases hxy : x = y
        · subst hxy
          rw [if_pos rfl] at hab
          by_cases hxz : x = z
          · subst hxz
            rw [if_pos rfl] at hbc ⊢
            exact ih ys zs hab hbc
          · rw [if_neg hxz] at hbc ⊢
            exact hbc
        · rw [if_neg hxy] at hab
          simp only [decide_eq_true_eq] at hab
          by_cases hyz : y = z
          · subst hyz
            rw [if_neg hxy]
            simp only [decide_eq_true_eq]
            exact hab
          · rw [if_neg hyz] at hbc
            simp only [decide_eq_true_eq] at hbc
            have hxz : ¬ x = z := by
              intro h
              subst h
              omega
            rw [if_neg hxz]
            simp only [decide_eq_true_eq]
            omega

theorem findRem_cons_hit (r : Reminder) (rest : List Reminder) (id : String)
    (h : r.reminderId = id) : findRem (r :: rest) id = some r := by
  simp [findRem, List.find?, h]

theorem findRem_cons_miss (r : Reminder) (rest : List Reminder) (id : String)
    (h : ¬ r.reminderId = id) : findRem (r :: rest) id = findRem rest id := by
  simp [findRem, List.find?, h]

theorem findRem_update (store : List Reminder) (id st : String) (id' : String) :
    findRem (update_reminder_status store id st).1 id' =
      if id' = id then (findRem store id).map (fun r => {r with status := st})
      else findRem store id' := by
  induction store with
  | nil =>
    simp only [update_reminder_status, findRem, List.find?, Option.map_none']
    split <;> rfl
  | cons r rest ih =>
    by_cases hr : r.reminderId = id
    · have hupd : (update_reminder_status (r :: rest) id st).1 =
          {r with status := st} :: rest := by
        simp [update_reminder_status, hr]
      rw [hupd]
      by_cases h' : id' = id
      · subst h'
        rw [show findRem ({r with status := st} :: rest) id' = some {r with status := st}
              from findRem_cons_hit _ _ _ hr,
            if_pos rfl, findRem_cons_hit _ _ _ hr]
        rfl
      · have hne : ¬ r.reminderId = id' := by
          rw [hr]; intro hh; exact h' hh.symm
        rw [show findRem ({r with status := st} :: rest) id' = findRem rest id'
              from findRem_cons_miss _ _ _ hne,
            if_neg h', findRem_cons_miss _ _ _ hne]
    · have hupd : (update_reminder_status (r :: rest) id st).1 =
          r :: (update_reminder_status rest id st).1 := by
        simp [update_reminder_status, hr]
      rw [hupd]
      by_cases hre : r.reminderId = id'
      · have h' : ¬ id' = id := fun hh => hr (hre.trans hh)
        rw [findRem_cons_hit _ _ _ hre, if_neg h', findRem_cons_hit _ _ _ hre]
      · rw [findRem_cons_miss _ _ _ hre, ih]
        by_cases h' : id' = id
        · subst h'
          rw [if_pos rfl, if_pos rfl, findRem_cons_miss _ _ _ hre]
        · rw [if_neg h', if_neg h', findRem_cons_miss _ _ _ hre]

theorem findRem_mark_mark (store : List Reminder) (id : String) :
    ((findRem store id).map (fun r => {r with status := "notified"})).map
        (fun r => {r with status := "notified"}) =
      (findRem store id).map (fun r => {r with status := "notified"}) := by
  cases findRem store id <;> rfl

theorem dispatchLoop_find (sendOk updExn : String → Bool) (due : List Reminder) :
    ∀ (store : List Reminder) (n : Nat) (id : String),
      findRem (dispatchLoop sendOk updExn due store n).1 id =
        if id ∈ dueMarkIds sendOk updExn due then
          (findRem store id).map (fun r => {r with status := "notified"})
        else findRem store id := by
  induction due with
  | nil => intro store n id; simp [dispatchLoop, dueMarkIds]
  | cons r rest ih =>
    intro store n id
    by_cases hs : sendOk r.reminderId
    · by_cases hu : updExn r.reminderId
      · have hstep : dispatchLoop sendOk updExn (r :: rest) store n =
            dispatchLoop sendOk updExn rest store (n + 1) := by
          simp [dispatchLoop, hs, hu]
        have hmark : dueMarkIds sendOk updExn (r :: rest) = dueMarkIds sendOk updExn rest := by
          simp [dueMarkIds, List.filter, hs, hu]
        rw [hstep, hmark]
        exact ih store (n + 1) id
      · have hu' : updExn r.reminderId = false := by simpa using hu
        have hstep : dispatchLoop sendOk updExn (r :: rest) store n =
            dispatchLoop sendOk updExn rest
              (update_reminder_status store r.reminderId "notified").1 (n + 1) := by
          simp [dispatchLoop, hs, hu']
        have hmark : dueMarkIds sendOk updExn (r :: rest) =
            r.reminderId :: dueMarkIds sendOk updExn rest := by
          simp [dueMarkIds, List.filter, hs, hu']
        rw [hstep, hmark, ih]
        by_cases hmem : id ∈ dueMarkIds sendOk updExn rest
        · rw [if_pos hmem, if_pos (List.mem_cons.mpr (Or.inr hmem)), findRem_update]
          by_cases hid : id = r.reminderId
          · rw [if_pos hid, hid, findRem_mark_mark]
          · rw [if_neg hid]
        · rw [if_neg hmem, findRem_update]
          by_cases hid : id = r.reminderId
          · rw [if_pos hid, if_pos (List.mem_cons.mpr (Or.inl hid)), hid]
          · rw [if_neg hid,
                if_neg (fun h => (List.mem_cons.mp h).elim (fun h1 => hid h1) (fun h2 => hmem h2))]
    · have hs' : sendOk r.reminderId = false := by simpa using hs
      have hstep : dispatchLoop sendOk updExn (r :: rest) store n =
          dispatchLoop sendOk updExn rest store n := by
        simp [dispatchLoop, hs']
      have hmark : dueMarkIds sendOk updExn (r :: rest) = dueMarkIds sendOk updExn rest := by
        simp [dueMarkIds, List.filter, hs']
      rw [hstep, hmark]
      exact ih store n id

theorem dispatchLoop_count (sendOk updExn : String → Bool) (due : List Reminder) :
    ∀ (store : List Reminder) (n : Nat),
      (dispatchLoop sendOk updExn due store n).2 =
        n + due.countP (fun r => sendOk r.reminderId) := by
  induction due with
  | nil => intro store n; simp [dispatchLoop]
  | cons r rest ih =>
    intro store n
    by_cases hs : sendOk r.reminderId
    · by_cases hu : updExn r.reminderId
      · have hstep : dispatchLoop sendOk updExn (r :: rest) store n =
            dispatchLoop sendOk updExn rest store (n + 1) := by
          simp [dispatchLoop, hs, hu]
        rw [hstep, ih, List.countP_cons]
        simp [hs]
        omega
      · have hu' : updExn r.reminderId = false := by simpa using hu
        have hstep : dispatchLoop sendOk updExn (r :: rest) store n =
            dispatchLoop sendOk updExn rest
              (update_reminder_status store r.reminderId "notified").1 (n + 1) := by
          simp [dispatchLoop, hs, hu']
        rw [hstep, ih, List.countP_cons]
        simp [hs]
        omega
    · have hs' : sendOk r.reminderId = false := by simpa using hs
      have hstep : dispatchLoop sendOk updExn (r :: rest) store n =
          dispatchLoop sendOk updExn rest store n := by
        simp [dispatchLoop, hs']
      rw [hstep, ih, List.countP_cons]
      simp [hs']

theorem get_due_eq_filter (now : Int) (store : List Reminder) :
    get_due_reminders now store =
      store.filter (fun r => r.status = "pending" && r.dueAt ≤ now) := by
  induction store with
  | nil => rfl
  | cons r rest ih =>
    simp only [get_due_reminders, List.filter]
    by_cases h : (r.status = "pending" && (r.dueAt ≤ now : Bool)) = true
    · simp [h, ih]
    · simp only [h]
      simp only [Bool.not_eq_true] at h
      simp [h, ih]

theorem findRem_of_mem_nodup (store : List Reminder) (r : Reminder)
    (hmem : r ∈ store) (hids : (store.map (fun q => q.reminderId)).Nodup) :
    findRem store r.reminderId = some r := by
  induction store with
  | nil => cases hmem
  | cons q rest ih =>
    simp only [List.map_cons, List.nodup_cons] at hids
    rcases List.mem_cons.mp hmem with rfl | hmem'
    · exact findRem_cons_hit _ _ _ rfl
    · have hne : ¬ q.reminderId = r.reminderId := by
        intro h
        exact hids.1 (h ▸ List.mem_map_of_mem (fun x => x.reminderId) hmem')
      rw [findRem_cons_miss _ _ _ hne]
      exact ih hmem' hids.2

theorem nodup_id_inj (store : List Reminder) (a b : Reminder)
    (ha : a ∈ store) (hb : b ∈ store)
    (hids : (store.map (fun q => q.reminderId)).Nodup)
    (heq : a.reminderId = b.reminderId) : a = b := by
  have h1 := findRem_of_mem_nodup store a ha hids
  have h2 := findRem_of_mem_nodup store b hb hids
  rw [heq] at h1
  rw [h1] at h2
  exact Option.some_injective _ h2

theorem goPages_http (labels : List String) (pages : List GPageFetch)
    (h : scanErr pages = some false) :
    ∀ acc latest, goPages labels pages acc latest = .http := by
  induction pages with
  | nil => simp [scanErr] at h
  | cons pf rest ih =>
    intro acc latest
    cases pf with
    | page p => exact ih (by simpa [scanErr] using h) _ _
    | httpErr => rfl
    | exn => simp [scanErr] at h

theorem goPages_raised (labels : List String) (pages : List GPageFetch)
    (h : scanErr pages = some true) :
    ∀ acc latest, goPages labels pages acc latest = .raised := by
  induction pages with
  | nil => simp [scanErr] at h
  | cons pf rest ih =>
    intro acc latest
    cases pf with
    | page p => exact ih (by simpa [scanErr] using h) _ _
    | httpErr => simp [scanErr] at h
    | exn => rfl

theorem addMsg_mem (labels : List String) (acc : List String) (ma : GMsgAdded)
    (mid' : String) :
    mid' ∈ addMsg labels acc ma ↔ mid' ∈ acc ∨ maQual labels ma mid' := by
  unfold addMsg maQual
  cases hid : ma.id with
  | none => simp
  | some mid =>
    by_cases hemp : mid = "" <;>
      by_cases hlab : (ma.labelIds.any fun l => labels.contains l) = true <;>
      by_cases hacc : acc.contains mid = true <;>
      simp [hemp, hlab, hacc, List.elem_iff] <;>
      aesop

theorem addMsg_nodup (labels : List String) (acc : List String) (ma : GMsgAdded)
    (h : acc.Nodup) : (addMsg labels acc ma).Nodup := by
  unfold addMsg
  cases hid : ma.id with
  | none => exact h
  | some mid =>
    dsimp only
    split_ifs with h1 h2 h3
    · exact h
    · exact h
    · refine List.Nodup.append h (List.nodup_singleton mid) ?_
      intro a ha hb
      rw [List.mem_singleton] at hb
      subst hb
      exact h3 (List.elem_iff.mpr ha)
    · exact h

theorem foldl_addMsg_mem (labels : List String) (mas : List GMsgAdded) :
    ∀ (acc : List String) (mid' : String),
      mid' ∈ mas.foldl (addMsg labels) acc ↔
        mid' ∈ acc ∨ ∃ ma ∈ mas, maQual labels ma mid' := by
  induction mas with
  | nil => simp
  | cons ma rest ih =>
    intro acc mid'
    simp only [List.foldl_cons, ih, addMsg_mem, List.mem_cons]
    constructor
    · rintro ((h | h) | ⟨q, hq, hqq⟩)
      · exact Or.inl h
      · exact Or.inr ⟨ma, Or.inl rfl, h⟩
      · exact Or.inr ⟨q, Or.inr hq, hqq⟩
    · rintro (h | ⟨q, (rfl | hq), hqq⟩)
      · exact Or.inl (Or.inl h)
      · exact Or.inl (Or.inr hqq)
      · exact Or.inr ⟨q, hq, hqq⟩

theorem foldl_addMsg_nodup (labels : List String) (mas : List GMsgAdded) :
    ∀ (acc : List String), acc.Nodup → (mas.foldl (addMsg labels) acc).Nodup := by
  induction mas with
  | nil => intro acc h; exact h
  | cons ma rest ih =>
    intro acc h
    exact ih _ (addMsg_nodup labels acc ma h)

theorem foldl_addRecord_fst (labels : List String) (hrs : List GHistRecord) :
    ∀ (al : List String × Option String) (mid' : String),
      mid' ∈ (hrs.foldl (addRecord labels) al).1 ↔
        mid' ∈ al.1 ∨ ∃ hr ∈ hrs, hrQual labels hr mid' := by
  induction hrs with
  | nil => simp
  | cons hr rest ih =>
    intro al mid'
    simp only [List.foldl_cons, ih, addRecord, foldl_addMsg_mem, List.mem_cons, hrQual]
    constructor
    · rintro ((h | h) | ⟨q, hq, hqq⟩)
      · exact Or.inl h
      · exact Or.inr ⟨hr, Or.inl rfl, h⟩
      · exact Or.inr ⟨q, Or.inr hq, hqq⟩
    · rintro (h | ⟨q, (rfl | hq), hqq⟩)
      · exact Or.inl (Or.inl h)
      · exact Or.inl (Or.inr hqq)
      · exact Or.inr ⟨q, hq, hqq⟩

theorem foldl_addRecord_nodup (labels : List String) (hrs : List GHistRecord) :
    ∀ (al : List String × Option String), al.1.Nodup →
      (hrs.foldl (addRecord labels) al).1.Nodup := by
  induction hrs with
  | nil => intro al h; exact h
  | cons hr rest ih =>
    intro al h
    exact ih _ (foldl_addMsg_nodup labels _ _ h)

theorem addPage_mem (labels : List String) (al : List String × Option String)
    (p : GPage) (mid' : String) :
    mid' ∈ (addPage labels al p).1 ↔ mid' ∈ al.1 ∨ ∃ hr ∈ p.history, hrQual labels hr mid' := by
  unfold addPage
  exact foldl_addRecord_fst labels p.history al mid'

theorem addPage_nodup (labels : List String) (al : List String × Option String)
    (p : GPage) (h : al.1.Nodup) : (addPage labels al p).1.Nodup :=
  foldl_addRecord_nodup labels p.history al h

theorem goPages_done_mem (labels : List String) (pages : List GPageFetch)
    (h : scanErr pages = none) :
    ∀ (acc : List String) (latest : Option String) (ids : List String)
      (lat : Option String),
      goPages labels pages acc latest = .done ids lat →
      ∀ mid', (mid' ∈ ids ↔ mid' ∈ acc ∨
        ∃ p, GPageFetch.page p ∈ pages ∧ ∃ hr ∈ p.history, hrQual labels hr mid') := by
  induction pages with
  | nil =>
    intro acc latest ids lat hgo mid'
    cases hgo
    simp
  | cons pf rest ih =>
    intro acc latest ids lat hgo mid'
    cases pf with
    | page p =>
      have hrest : scanErr rest = none := by simpa [scanErr] using h
      have := ih hrest _ _ _ _ hgo mid'
      rw [this, addPage_mem]
      constructor
      · rintro ((h1 | h1) | ⟨q, hq, hqq⟩)
        · exact Or.inl h1
        · exact Or.inr ⟨p, List.mem_cons.mpr (Or.inl rfl), h1⟩
        · exact Or.inr ⟨q, List.mem_cons.mpr (Or.inr hq), hqq⟩
      · rintro (h1 | ⟨q, hq, hqq⟩)
        · exact Or.inl (Or.inl h1)
        · rcases List.mem_cons.mp hq with heq | hq'
          · cases heq
            exact Or.inl (Or.inr hqq)
          · exact Or.inr ⟨q, hq', hqq⟩
    | httpErr => simp [scanErr] at h
    | exn => simp [scanErr] at h

theorem goPages_done_nodup (labels : List String) (pages : List GPageFetch) :
    ∀ (acc : List String) (latest : Option String) (ids : List String)
      (lat : Option String),
      acc.Nodup → goPages labels pages acc latest = .done ids lat → ids.Nodup := by
  induction pages with
  | nil =>
    intro acc latest ids lat hacc hgo
    cases hgo
    exact hacc
  | cons pf rest ih =>
    intro acc latest ids lat hacc hgo
    cases pf with
    | page p => exact ih _ _ _ _ (addPage_nodup labels _ p hacc) hgo
    | httpErr => cases hgo
    | exn => cases hgo

theorem lastOpt_append (a b : List String) (init : Option String) :
    lastOpt (a ++ b) init = lastOpt b (lastOpt a init) := by
  unfold lastOpt
  exact List.foldl_append _ _ _ _

theorem lastOpt_getLast? (l : List String) :
    ∀ (init : Option String),
      lastOpt l init = match l.getLast? with
                       | some x => some x
                       | none => init := by
  induction l with
  | nil => intro init; rfl
  | cons a t ih =>
    intro init
    cases t with
    | nil => simp [lastOpt]
    | cons b t' =>
      have h1 : lastOpt (a :: b :: t') init = lastOpt (b :: t') (some a) := rfl
      rw [h1, ih, List.getLast?_cons_cons]
      cases hg : (b :: t').getLast? with
      | none =>
        rw [List.getLast?_eq_none_iff] at hg
        cases hg
      | some x => rfl

theorem foldl_addRecord_snd (labels : List String) (hrs : List GHistRecord) :
    ∀ (al : List String × Option String),
      (hrs.foldl (addRecord labels) al).2 =
        lastOpt (hrs.filterMap (fun hr => hr.id)) al.2 := by
  induction hrs with
  | nil => intro al; rfl
  | cons hr rest ih =>
    intro al
    rw [List.foldl_cons, ih]
    cases hid : hr.id with
    | none => simp [addRecord, hid, List.filterMap_cons]
    | some i => simp [addRecord, hid, List.filterMap_cons, lastOpt]

theorem addPage_snd (labels : List String) (al : List String × Option String)
    (p : GPage) :
    (addPage labels al p).2 = lastOpt (observedOfPage p) al.2 := by
  unfold addPage observedOfPage
  rw [lastOpt_append, ← foldl_addRecord_snd]
  cases p.historyId with
  | none => rfl
  | some h => rfl

theorem goPages_done_latest (labels : List String) (pages : List GPageFetch) :
    ∀ (acc : List String) (latest : Option String) (ids : List String)
      (lat : Option String),
      goPages labels pages acc latest = .done ids lat →
      lat = lastOpt (observedCheckpoints pages) latest := by
  induction pages with
  | nil =>
    intro acc latest ids lat hgo
    cases hgo
    rfl
  | cons pf rest ih =>
    intro acc latest ids lat hgo
    cases pf with
    | page p =>
      have := ih _ _ _ _ hgo
      rw [this]
      show _ = lastOpt (observedOfPage p ++ observedCheckpoints rest) latest
      rw [lastOpt_append, addPage_snd]
    | httpErr => cases hgo
    | exn => cases hgo

theorem pairwise_le_getLast? (l : List String)
    (h : l.Pairwise (fun a b => histVal a ≤ histVal b)) :
    ∀ (m : String), l.getLast? = some m → ∀ x ∈ l, histVal x ≤ histVal m := by
  induction l with
  | nil => intro m hm; cases hm
  | cons a t ih =>
    intro m hm x hx
    rcases List.pairwise_cons.mp h with ⟨ha, ht⟩
    cases t with
    | nil =>
      simp only [List.getLast?_singleton, Option.some_inj] at hm
      subst hm
      rcases List.mem_singleton.mp hx with rfl
      exact le_refl _
    | cons b t' =>
      rw [List.getLast?_cons_cons] at hm
      have hmem : m ∈ b :: t' := by
        rcases List.mem_getLast?_eq_getLast hm with ⟨hne, rfl⟩
        exact List.getLast_mem hne
      rcases List.mem_cons.mp hx with rfl | hx'
      · exact ha m hmem
      · exact ih ht m hm x hx'

/-! ## Claim C1: the due-reminder dispatch operation -/

/-- C1 (confirmed): on every invocation of `dispatch_due_reminders` (bot and
store configured), (i) the processed snapshot is exactly the rows with
`status = "pending"` and `due_at ≤ now`, in the store's native order;
(ii) the returned count equals the number of reminders whose notification
send succeeded; (iii) a reminder whose send fails is left untouched and
still pending, so the next invocation's due query selects it again; and
(iv) any reminder whose stored row changed was part of the due snapshot and
had a successful send — status flips to `notified` only after a successful
send. -/
theorem C1_dispatch_due_reminders (sendOk updExn : String → Bool) (now : Int)
    (store : List Reminder)
    (hids : (store.map (fun r => r.reminderId)).Nodup) :
    get_due_reminders now store =
        store.filter (fun r => r.status = "pending" && r.dueAt ≤ now)
    ∧ (dispatch_due_reminders sendOk updExn now store).2 =
        (get_due_reminders now store).countP (fun r => sendOk r.reminderId)
    ∧ (∀ r ∈ get_due_reminders now store, sendOk r.reminderId = false →
        findRem (dispatch_due_reminders sendOk updExn now store).1 r.reminderId = some r ∧
        r ∈ get_due_reminders now (dispatch_due_reminders sendOk updExn now store).1)
    ∧ (∀ r ∈ store,
        findRem (dispatch_due_reminders sendOk updExn now store).1 r.reminderId ≠ some r →
        r ∈ get_due_reminders now store ∧ sendOk r.reminderId = true) := by
  have hfilter := get_due_eq_filter now store
  have hsub : ∀ r, r ∈ get_due_reminders now store → r ∈ store := by
    intro r hr
    rw [hfilter] at hr
    exact List.mem_of_mem_filter hr
  have hcond : ∀ r, r ∈ get_due_reminders now store →
      (r.status = "pending" && (r.dueAt ≤ now : Bool)) = true := by
    intro r hr
    rw [hfilter] at hr
    exact (List.mem_filter.mp hr).2
  have hnotmark : ∀ r : Reminder, sendOk r.reminderId = false →
      r.reminderId ∉ dueMarkIds sendOk updExn (get_due_reminders now store) := by
    intro r hsf hmem
    rcases List.mem_map.mp hmem with ⟨q, hq, hqid⟩
    rcases List.mem_filter.mp hq with ⟨_, hqc⟩
    rw [Bool.and_eq_true] at hqc
    rw [hqid] at hqc
    rw [hqc.1] at hsf
    cases hsf
  refine ⟨hfilter, ?_, ?_, ?_⟩
  · unfold dispatch_due_reminders
    rw [dispatchLoop_count]
    omega
  · intro r hr hsf
    have hfind : findRem (dispatch_due_reminders sendOk updExn now store).1 r.reminderId
        = some r := by
      unfold dispatch_due_reminders
      rw [dispatchLoop_find, if_neg (hnotmark r hsf),
          findRem_of_mem_nodup store r (hsub r hr) hids]
    refine ⟨hfind, ?_⟩
    have hmem' : r ∈ (dispatch_due_reminders sendOk updExn now store).1 :=
      List.mem_of_find?_eq_some hfind
    rw [get_due_eq_filter]
    exact List.mem_filter.mpr ⟨hmem', hcond r hr⟩
  · intro r hr hch
    unfold dispatch_due_reminders at hch
    rw [dispatchLoop_find] at hch
    by_cases hm : r.reminderId ∈ dueMarkIds sendOk updExn (get_due_reminders now store)
    · rcases List.mem_map.mp hm with ⟨q, hq, hqid⟩
      rcases List.mem_filter.mp hq with ⟨hqdue, hqc⟩
      rw [Bool.and_eq_true] at hqc
      have hqr : q = r := nodup_id_inj store q r (hsub q hqdue) hr hids hqid
      subst hqr
      exact ⟨hqdue, hqc.1⟩
    · rw [if_neg hm, findRem_of_mem_nodup store r hr hids] at hch
      exact absurd rfl hch

theorem C1_dispatch_due_reminders_witness :
    (([({ reminderId := "a", sourceType := "manual", description := some "d",
          dueAt := 0, status := "pending" } : Reminder)].map
        (fun r => r.reminderId)).Nodup) ∧
    (dispatch_due_reminders (fun _ => true) (fun _ => false) 5
        [{ reminderId := "a", sourceType := "manual", description := some "d",
           dueAt := 0, status := "pending" }]).2 = 1 := by
  refine ⟨by decide, ?_⟩
  have h := C1_dispatch_due_reminders (fun _ => true) (fun _ => false) 5
      [{ reminderId := "a", sourceType := "manual", description := some "d",
         dueAt := 0, status := "pending" }] (by decide)
  rw [h.2.1]
  decide

/-! ## Claim C4: uniform acknowledgments -/

/-- C6 counterexample: the parser also accepts `"5/12/2025 14:30"`, which is
not of the exact `DD/MM/YYYY HH:MM` shape, so acceptance is not equivalent
to matching that shape. -/
theorem C6_counterexample :
    (parse_custom_datetime "5/12/2025 14:30").isSome = true ∧
    strictDDMMYYYYHHMM "5/12/2025 14:30" = false := by decide

/-- C6 amended: every `DD/MM/YYYY HH:MM` string with a valid calendar date
is accepted; the listed vectors behave as claimed ("25/12/2025 14:30"
accepted, "2025-12-25 14:30", "25/12/2025", "32/01/2025 10:00" rejected);
but the parser is laxer than the claim: 1-2-digit day/month/hour/minute
fields also parse, e.g. "5/12/2025 14:30". -/
theorem C6_parse_custom_datetime :
    (∀ s : String, strictDDMMYYYYHHMM s = true → (parse_custom_datetime s).isSome = true) ∧
    (parse_custom_datetime "25/12/2025 14:30").isSome = true ∧
    parse_custom_datetime "2025-12-25 14:30" = none ∧
    parse_custom_datetime "25/12/2025" = none ∧
    parse_custom_datetime "32/01/2025 10:00" = none ∧
    (parse_custom_datetime "5/12/2025 14:30").isSome = true := by
  refine ⟨strict_accepted, ?_, ?_, ?_, ?_, ?_⟩ <;> decide

theorem C6_parse_custom_datetime_witness :
    strictDDMMYYYYHHMM "25/12/2025 14:30" = true ∧
    (parse_custom_datetime "25/12/2025 14:30").isSome = true :=
  ⟨by decide, C6_parse_custom_datetime.1 "25/12/2025 14:30" (by decide)⟩

/-! ## Claim C5: at most one conversation state per chat -/

/-- C5 counterexample: chat 7 is in `awaiting_offset`; pressing the custom
snooze button on a reminder card (`reminder_extend:rid:custom`) seeds
`custom_datetime_state` without clearing `manual_new_state`, so the chat is
simultaneously in both states. -/
theorem C5_counterexample :
    ((telegram_webhook { telegramUserId := some 1 } {}
        ⟨fun c => if c = 7 then some { stage := "awaiting_offset", description := "d" } else none,
         fun _ => none⟩
        (.callback (some 7) (some 1) (some "reminder_extend:rid:custom")
          (some 5) (some "cb") (some "Reminder"))).manual 7).isSome = true ∧
    ((telegram_webhook { telegramUserId := some 1 } {}
        ⟨fun c => if c = 7 then some { stage := "awaiting_offset", description := "d" } else none,
         fun _ => none⟩
        (.callback (some 7) (some 1) (some "reminder_extend:rid:custom")
          (some 5) (some "cb") (some "Reminder"))).custom 7).isSome = true := by decide

/-- C5 amended: `/new` (reachable only when no custom-datetime state exists
for the chat, since that state consumes all text first) resets the chat to
`awaiting_description`, and the manual-flow custom button clears
`manual_new_state` while seeding `custom_datetime_state`; but the email-card
and reminder-card custom buttons seed `custom_datetime_state` without
clearing an existing `manual_new_state`, so a chat can hold both states at
once. -/
theorem C5_state_overwrites :
    (∀ (cfg : TgCfg) (orc : TgOracles) (st : ChatStates) (c : Int) (fid : Option Int),
      cfg.botPresent = true →
      is_allowed_user cfg.telegramUserId (.message (some c) fid (some "/new")) = true →
      st.custom c = none →
      (telegram_webhook cfg orc st (.message (some c) fid (some "/new"))).manual c =
        some { stage := "awaiting_description", description := "" } ∧
      (telegram_webhook cfg orc st (.message (some c) fid (some "/new"))).custom c = none)
    ∧ (∀ (cfg : TgCfg) (orc : TgOracles) (st : ChatStates) (c : Int) (fid : Option Int)
        (d : String) (messageId : Option Int) (cbId msgText : Option String),
        cfg.botPresent = true →
        is_allowed_user cfg.telegramUserId
          (.callback (some c) fid (some "manual_offset:custom") messageId cbId msgText) = true →
        cfg.repoPresent = true →
        st.manual c = some { stage := "awaiting_offset", description := d } →
        ((telegram_webhook cfg orc st
            (.callback (some c) fid (some "manual_offset:custom") messageId cbId msgText)).custom
              c).isSome = true ∧
        (telegram_webhook cfg orc st
            (.callback (some c) fid (some "manual_offset:custom") messageId cbId msgText)).manual
              c = none) := by
  constructor
  · intro cfg orc st c fid hbot hallow hcust
    unfold telegram_webhook
    rw [hbot, hallow]
    simp only [Bool.not_true, Bool.false_eq_true, if_false, if_true]
    unfold handleMessage
    dsimp only
    have hstrip : pyStrip ((some "/new").getD "") = "/new" := by decide
    rw [hstrip, hcust]
    have h1 : ("/new" = "/start") = False := by simp
    have h2 : ("/new" = "/new") = True := by simp
    simp only [h1, h2, if_false, if_true]
    unfold trySend
    dsimp only
    split
    · constructor
      · simp [mkRes, setManual]
      · simp [mkRes, setManual, hcust]
    · constructor
      · simp [mkRes, setManual]
      · simp [mkRes, setManual, hcust]
  · intro cfg orc st c fid d messageId cbId msgText hbot hallow hrepo hman
    unfold telegram_webhook
    rw [hbot, hallow]
    simp only [Bool.not_true, Bool.false_eq_true, if_false, if_true]
    unfold handleCallback
    dsimp only
    have hstrip : pyStrip ((some "manual_offset:custom").getD "") = "manual_offset:custom" := by
      decide
    rw [hstrip]
    have hc1 : pyStartsWith "manual_offset:custom" "custom_cancel:" = false := by decide
    have hc2 : pyStartsWith "manual_offset:custom" "manual_offset:" = true := by decide
    rw [hc1, hc2]
    simp only [Bool.false_eq_true, if_false, if_true]
    unfold handleManualOffset
    rw [hrepo, hman]
    simp only [Bool.not_true, Bool.false_eq_true, if_false]
    rw [if_neg (show ¬("awaiting_offset" ≠ "awaiting_offset") by simp)]
    have hkey : String.mk ((pySplit1 ':' ("manual_offset:custom").data).getD 1 []) =
        "custom" := by decide
    rw [hkey]
    rw [if_pos rfl]
    unfold trySend
    dsimp only
    split
    · unfold capturePrompt
      cases horc : orc.sentMessageId with
      | none =>
        dsimp only
        constructor
        · simp [mkRes, setManual, setCustom]
        · simp [mkRes, setManual, setCustom]
      | some pid =>
        dsimp only
        have hc : (setManual (setCustom st c (some
            { mode := "manual", description := d,
              originalChatId := c, originalMessageId := messageId })) c none).custom c =
            some { mode := "manual", description := d,
                   originalChatId := c, originalMessageId := messageId } := by
          simp [setManual, setCustom]
        rw [hc]
        dsimp only
        constructor
        · simp [mkRes, setManual, setCustom]
        · simp [mkRes, setManual, setCustom]
    · constructor
      · simp [mkRes, setManual, setCustom]
      · simp [mkRes, setManual, setCustom]

theorem C5_state_overwrites_witness :
    (({ botPresent := true } : TgCfg).botPresent = true) ∧
    ((telegram_webhook { botPresent := true } {} ⟨fun _ => none, fun _ => none⟩
        (.message (some 7) (some 1) (some "/new"))).manual 7 =
      some { stage := "awaiting_description", description := "" }) := by
  refine ⟨rfl, ?_⟩
  exact (C5_state_overwrites.1 { botPresent := true } {} ⟨fun _ => none, fun _ => none⟩
    7 (some 1) rfl (by decide) rfl).1

/-! ## Dispatch reduction lemmas for the chat webhook -/

theorem telegram_webhook_message (cfg : TgCfg) (orc : TgOracles) (st : ChatStates)
    (chatId : Option Int) (fid : Option Int) (text? : Option String)
    (hbot : cfg.botPresent = true)
    (hallow : is_allowed_user cfg.telegramUserId (.message chatId fid text?) = true) :
    telegram_webhook cfg orc st (.message chatId fid text?) =
      handleMessage cfg orc st chatId text? := by
  unfold telegram_webhook
  rw [hbot, hallow]
  rfl

theorem telegram_webhook_callback (cfg : TgCfg) (orc : TgOracles) (st : ChatStates)
    (chatId : Option Int) (fid : Option Int) (dataStr : Option String)
    (messageId : Option Int) (cbId : Option String) (msgText : Option String)
    (hbot : cfg.botPresent = true)
    (hallow : is_allowed_user cfg.telegramUserId
      (.callback chatId fid dataStr messageId cbId msgText) = true) :
    telegram_webhook cfg orc st (.callback chatId fid dataStr messageId cbId msgText) =
      handleCallback cfg orc st chatId dataStr messageId cbId msgText := by
  unfold telegram_webhook
  rw [hbot, hallow]
  rfl

theorem handleCallback_manual_offset (cfg : TgCfg) (orc : TgOracles) (st : ChatStates)
    (c : Int) (dataStr : Option String) (messageId : Option Int) (cbId : Option String)
    (msgText : Option String)
    (h1 : pyStartsWith (pyStrip (dataStr.getD "")) "custom_cancel:" = false)
    (h2 : pyStartsWith (pyStrip (dataStr.getD "")) "manual_offset:" = true) :
    handleCallback cfg orc st (some c) dataStr messageId cbId msgText =
      handleManualOffset cfg orc st c (pyStrip (dataStr.getD "")) messageId cbId := by
  unfold handleCallback
  dsimp only
  rw [h1, h2]
  simp

/-- The `manual_offset` fixed-duration branch when the store write raises:
the ack is the alert "Failed to save reminder." and nothing else happens —
in particular `manual_new_state` is untouched. -/
theorem handleManualOffset_createFail (cfg : TgCfg) (orc : TgOracles) (st : ChatStates)
    (c : Int) (data : String) (messageId : Option Int) (cbId : Option String)
    (d : String) (delta : Int)
    (hrepo : cfg.repoPresent = true)
    (hman : st.manual c = some { stage := "awaiting_offset", description := d })
    (hnc : (String.mk ((pySplit1 ':' data.data).getD 1 []) = "custom") = False)
    (hdelta : offset_key_to_delta (String.mk ((pySplit1 ':' data.data).getD 1 [])) =
      some delta)
    (hcreate : orc.createOk = false) :
    handleManualOffset cfg orc st c data messageId cbId =
      { mkRes st with acks := ackIf cbId "Failed to save reminder." true } := by
  unfold handleManualOffset
  rw [hrepo, hman]
  simp only [Bool.not_true, Bool.false_eq_true, if_false]
  rw [if_neg (show ¬("awaiting_offset" ≠ "awaiting_offset") by simp)]
  rw [if_neg (of_eq_false hnc), hdelta]
  dsimp only
  rw [hcreate]
  rfl

/-! ## Claim C8: fixed-offset button press with store failure -/

/-- C8 (confirmed): when a chat in `awaiting_offset` presses one of the four
fixed-duration offset buttons and `repo.create_reminder` raises, the
conversation state maps are left untouched (same `awaiting_offset` entry, so
the same press can be retried), no reminder row is written, no message is
sent or edited, and the only surfaced effect is the alert acknowledgment
"Failed to save reminder.". -/
theorem C8_store_failure_keeps_state (cfg : TgCfg) (orc : TgOracles) (st : ChatStates)
    (c : Int) (fid : Option Int) (key : String) (messageId : Option Int)
    (cbId : Option String) (msgText : Option String) (d : String)
    (hkey : key ∈ ["1h", "1d", "3d", "1w"])
    (hbot : cfg.botPresent = true)
    (hallow : is_allowed_user cfg.telegramUserId
      (.callback (some c) fid (some ("manual_offset:" ++ key)) messageId cbId msgText) = true)
    (hrepo : cfg.repoPresent = true)
    (hman : st.manual c = some { stage := "awaiting_offset", description := d })
    (hcreate : orc.createOk = false) :
    (telegram_webhook cfg orc st
      (.callback (some c) fid (some ("manual_offset:" ++ key)) messageId cbId msgText)).manual
        = st.manual ∧
    (telegram_webhook cfg orc st
      (.callback (some c) fid (some ("manual_offset:" ++ key)) messageId cbId msgText)).custom
        = st.custom ∧
    (telegram_webhook cfg orc st
      (.callback (some c) fid (some ("manual_offset:" ++ key)) messageId cbId msgText)).created
        = [] ∧
    (telegram_webhook cfg orc st
      (.callback (some c) fid (some ("manual_offset:" ++ key)) messageId cbId msgText)).acks
        = ackIf cbId "Failed to save reminder." true ∧
    (telegram_webhook cfg orc st
      (.callback (some c) fid (some ("manual_offset:" ++ key)) messageId cbId msgText)).sent
        = [] ∧
    (telegram_webhook cfg orc st
      (.callback (some c) fid (some ("manual_offset:" ++ key)) messageId cbId msgText)).edits
        = [] := by
  rw [telegram_webhook_callback cfg orc st (some c) fid _ messageId cbId msgText hbot hallow]
  simp only [List.mem_cons, List.mem_singleton, List.not_mem_nil, or_false] at hkey
  rcases hkey with rfl | rfl | rfl | rfl
  · rw [handleCallback_manual_offset cfg orc st c _ messageId cbId msgText
        (by decide) (by decide),
      handleManualOffset_createFail cfg orc st c _ messageId cbId d 3600 hrepo hman
        (by decide) (by decide) hcreate]
    exact ⟨rfl, rfl, rfl, rfl, rfl, rfl⟩
  · rw [handleCallback_manual_offset cfg orc st c _ messageId cbId msgText
        (by decide) (by decide),
      handleManualOffset_createFail cfg orc st c _ messageId cbId d 86400 hrepo hman
        (by decide) (by decide) hcreate]
    exact ⟨rfl, rfl, rfl, rfl, rfl, rfl⟩
  · rw [handleCallback_manual_offset cfg orc st c _ messageId cbId msgText
        (by decide) (by decide),
      handleManualOffset_createFail cfg orc st c _ messageId cbId d (3 * 86400) hrepo hman
        (by decide) (by decide) hcreate]
    exact ⟨rfl, rfl, rfl, rfl, rfl, rfl⟩
  · rw [handleCallback_manual_offset cfg orc st c _ messageId cbId msgText
        (by decide) (by decide),
      handleManualOffset_createFail cfg orc st c _ messageId cbId d (7 * 86400) hrepo hman
        (by decide) (by decide) hcreate]
    exact ⟨rfl, rfl, rfl, rfl, rfl, rfl⟩

theorem C8_store_failure_keeps_state_witness :
    ("1h" ∈ (["1h", "1d", "3d", "1w"] : List String)) ∧
    (telegram_webhook { telegramUserId := none } { createOk := false }
        ⟨fun k => if k = 7 then some { stage := "awaiting_offset", description := "milk" }
                  else none,
         fun _ => none⟩
        (.callback (some 7) (some 1) (some ("manual_offset:" ++ "1h")) (some 5) (some "cb")
          none)).acks = [("Failed to save reminder.", true)] := by
  refine ⟨by decide, ?_⟩
  have h := C8_store_failure_keeps_state { telegramUserId := none } { createOk := false }
    ⟨fun k => if k = 7 then some { stage := "awaiting_offset", description := "milk" }
              else none,
     fun _ => none⟩ 7 (some 1) "1h" (some 5) (some "cb") none "milk"
    (by decide) rfl (by decide) rfl (by decide) rfl
  rw [h.2.2.2.1]
  rfl

/-! ## Claim C10: custom-datetime state consumes all text first -/

/-- C10 (confirmed): while a chat holds an awaiting-custom-datetime state,
any text that does not parse as a custom datetime — including the command
strings "/start" and "/new", which do not parse — produces only the
invalid-format reply and leaves both state maps untouched, so commands are
not recognized in that state. -/
theorem C10_custom_state_consumes_text (cfg : TgCfg) (orc : TgOracles) (st : ChatStates)
    (c : Int) (fid : Option Int) (text? : Option String) (sc : CustomState)
    (hbot : cfg.botPresent = true)
    (hallow : is_allowed_user cfg.telegramUserId (.message (some c) fid text?) = true)
    (hcust : st.custom c = some sc)
    (hparse : parse_custom_datetime (pyStrip (text?.getD "")) = none) :
    (telegram_webhook cfg orc st (.message (some c) fid text?)).manual = st.manual ∧
    (telegram_webhook cfg orc st (.message (some c) fid text?)).custom = st.custom ∧
    (telegram_webhook cfg orc st (.message (some c) fid text?)).sent =
      [(c, invalidFormatText)] ∧
    (telegram_webhook cfg orc st (.message (some c) fid text?)).created = [] ∧
    (telegram_webhook cfg orc st (.message (some c) fid text?)).edits = [] ∧
    (telegram_webhook cfg orc st (.message (some c) fid text?)).acks = [] ∧
    parse_custom_datetime "/start" = none ∧
    parse_custom_datetime "/new" = none := by
  rw [telegram_webhook_message cfg orc st (some c) fid text? hbot hallow]
  unfold handleMessage
  dsimp only
  rw [hcust]
  unfold handleCustomText
  rw [hparse]
  dsimp only
  unfold trySend
  refine ⟨?_, ?_, ?_, ?_, ?_, ?_, by decide, by decide⟩ <;> (split <;> rfl)

theorem C10_custom_state_consumes_text_witness :
    ((⟨fun _ => none,
       fun k => if k = 7 then some { mode := "manual", description := "milk" } else none⟩ :
        ChatStates).custom 7).isSome = true ∧
    (telegram_webhook { telegramUserId := none } {}
        ⟨fun _ => none,
         fun k => if k = 7 then some { mode := "manual", description := "milk" } else none⟩
        (.message (some 7) (some 1) (some "/new"))).sent = [(7, invalidFormatText)] := by
  refine ⟨by decide, ?_⟩
  have h := C10_custom_state_consumes_text { telegramUserId := none } {}
    ⟨fun _ => none,
     fun k => if k = 7 then some { mode := "manual", description := "milk" } else none⟩
    7 (some 1) (some "/new") { mode := "manual", description := "milk" }
    rfl (by decide) (by decide) (by decide)
  exact h.2.2.1

/-! ## Claim C7: bootstrap on missing checkpoint -/

/-- C2 counterexample: an `HttpError` on page 2 of the pagination is caught
inside `list_new_message_ids_since`, which returns `([], start_history_id)`;
the webhook then reports plain success (`ok = true`, no error field) — the
error is NOT reported to the caller, contrary to the claim.  (The other
claimed parts hold: zero ids, checkpoint untouched, collected ids
discarded.) -/
theorem C2_counterexample :
    scanErr [GPageFetch.page ⟨[⟨some "150", [⟨some "m1", ["INBOX"]⟩]⟩], some "150"⟩,
             GPageFetch.httpErr] = some false ∧
    gmail_webhook { targetSenderEmail := some "boss@example.com" }
        { lastHistoryId := some "100", persisted := some "100" }
        (.signal (some "me@example.com") (some "150"))
        [GPageFetch.page ⟨[⟨some "150", [⟨some "m1", ["INBOX"]⟩]⟩], some "150"⟩,
         GPageFetch.httpErr]
        (fun _ => .ok {}) (fun _ => true) true =
      { status := 200, okField := true, errorPresent := false, mode := some "history",
        newMessageIds := [], queried := true,
        ckpt := { lastHistoryId := some "100", persisted := some "100" } } := by decide

/-- C2 amended: on a provider error at any point of the pagination of a pass
started from an existing checkpoint, the pass yields zero message ids, both
checkpoints stay exactly as before, nothing is matched or dispatched (any
ids collected before the error are discarded); but the error is reported to
the caller only when it is not an `HttpError` (`b = true`): an `HttpError`
is swallowed inside the pagination helper and the pass reports success. -/
theorem C2_provider_error (cfg : GmailCfg) (st : CkptState) (ea hid : Option String)
    (pages : List GPageFetch) (meta : String → Except Unit GMeta)
    (sendOk : String → Bool) (writeOk : Bool) (c : String) (b : Bool)
    (hg : cfg.gmailPresent = true) (hlast : st.lastHistoryId = some c)
    (herr : scanErr pages = some b) :
    (gmail_webhook cfg st (.signal ea hid) pages meta sendOk writeOk).newMessageIds = [] ∧
    (gmail_webhook cfg st (.signal ea hid) pages meta sendOk writeOk).ckpt = st ∧
    (gmail_webhook cfg st (.signal ea hid) pages meta sendOk writeOk).matched = [] ∧
    (gmail_webhook cfg st (.signal ea hid) pages meta sendOk writeOk).dispatched = 0 ∧
    (gmail_webhook cfg st (.signal ea hid) pages meta sendOk writeOk).status = 200 ∧
    (gmail_webhook cfg st (.signal ea hid) pages meta sendOk writeOk).errorPresent = b ∧
    (gmail_webhook cfg st (.signal ea hid) pages meta sendOk writeOk).okField = !b := by
  cases b with
  | false =>
    have hlist : list_new_message_ids_since pages (some c) none = .ok ([], some c) := by
      unfold list_new_message_ids_since
      dsimp only
      rw [goPages_http _ pages herr]
    have hfl : filterLoop cfg.targetSenderEmail meta [] = .ok [] := by
      cases cfg.targetSenderEmail <;> rfl
    unfold gmail_webhook
    rw [hg]
    dsimp only
    rw [hlast]
    dsimp only
    rw [hlist]
    dsimp only
    rw [hfl]
    dsimp only
    refine ⟨rfl, ?_, rfl, ?_, rfl, rfl, rfl⟩
    · simp
    · simp
  | true =>
    have hlist : list_new_message_ids_since pages (some c) none = .error () := by
      unfold list_new_message_ids_since
      dsimp only
      rw [goPages_raised _ pages herr]
    unfold gmail_webhook
    rw [hg]
    dsimp only
    rw [hlast]
    dsimp only
    rw [hlist]
    exact ⟨rfl, rfl, rfl, rfl, rfl, rfl, rfl⟩

theorem C2_provider_error_witness :
    scanErr [GPageFetch.exn] = some true ∧
    (gmail_webhook { targetSenderEmail := some "boss@example.com" }
        { lastHistoryId := some "100", persisted := some "100" }
        (.signal none none) [GPageFetch.exn]
        (fun _ => .ok {}) (fun _ => true) true).ckpt =
      { lastHistoryId := some "100", persisted := some "100" } := by
  refine ⟨by decide, ?_⟩
  exact (C2_provider_error { targetSenderEmail := some "boss@example.com" }
    { lastHistoryId := some "100", persisted := some "100" } none none [GPageFetch.exn]
    (fun _ => .ok {}) (fun _ => true) true "100" true rfl rfl (by decide)).2.1

/-! ## Claim C9: sender filter crashes when only the allowlist is configured -/

theorem filterLoop_none_raises (meta : String → Except Unit GMeta) :
    ∀ (ids : List String), (∃ mid ∈ ids, ∃ m, meta mid = .ok m) →
      filterLoop none meta ids = .error () := by
  intro ids
  induction ids with
  | nil => rintro ⟨mid, hmem, _⟩; cases hmem
  | cons mid rest ih =>
    rintro ⟨mid', hmem, m, hm⟩
    unfold filterLoop
    cases hh : meta mid with
    | ok m0 => rfl
    | error e =>
      rcases List.mem_cons.mp hmem with rfl | hmem'
      · rw [hh] at hm
        cases hm
      · exact ih ⟨mid', hmem', m, hm⟩

/-- C9 (confirmed, implicit claim): `load_settings` accepts a configuration
with only `ALLOWED_SENDER_EMAILS` set, leaving `target_sender_email = None`;
the webhook's sender filter consults only `settings.target_sender_email`
(never the allowlist), so in that configuration any steady-state pass that
successfully fetches metadata for at least one new message raises an
uncaught `AttributeError` (`None.lower()`) at the filter step, surfacing as
a 500 instead of filtering. -/
theorem C9_allowlist_only_crash :
    (load_settings (some "boss@example.com") none =
      .ok { targetSenderEmail := none, allowedSenderEmails := ["boss@example.com"] })
    ∧ (∀ (cfg : GmailCfg) (st : CkptState) (ea hid : Option String)
        (pages : List GPageFetch) (meta : String → Except Unit GMeta)
        (sendOk : String → Bool) (writeOk : Bool) (c : String)
        (ids : List String) (latest : Option String),
        cfg.gmailPresent = true →
        cfg.targetSenderEmail = none →
        st.lastHistoryId = some c →
        list_new_message_ids_since pages (some c) none = .ok (ids, latest) →
        (∃ mid ∈ ids, ∃ m, meta mid = .ok m) →
        (gmail_webhook cfg st (.signal ea hid) pages meta sendOk writeOk).raised = true ∧
        (gmail_webhook cfg st (.signal ea hid) pages meta sendOk writeOk).status = 500) := by
  constructor
  · rfl
  · intro cfg st ea hid pages meta sendOk writeOk c ids latest hg htarget hlast hlist hmeta
    unfold gmail_webhook
    rw [hg]
    dsimp only
    rw [hlast]
    dsimp only
    rw [hlist]
    dsimp only
    rw [htarget, filterLoop_none_raises meta ids hmeta]
    exact ⟨rfl, rfl⟩

theorem C9_allowlist_only_crash_witness :
    (list_new_message_ids_since
        [GPageFetch.page ⟨[⟨some "150", [⟨some "m1", ["INBOX"]⟩]⟩], some "150"⟩]
        (some "100") none = .ok (["m1"], some "150")) ∧
    (gmail_webhook { targetSenderEmail := none }
        { lastHistoryId := some "100", persisted := some "100" }
        (.signal none none)
        [GPageFetch.page ⟨[⟨some "150", [⟨some "m1", ["INBOX"]⟩]⟩], some "150"⟩]
        (fun _ => .ok {}) (fun _ => true) true).raised = true := by
  refine ⟨rfl, ?_⟩
  exact (C9_allowlist_only_crash.2 { targetSenderEmail := none }
    { lastHistoryId := some "100", persisted := some "100" } none none
    [GPageFetch.page ⟨[⟨some "150", [⟨some "m1", ["INBOX"]⟩]⟩], some "150"⟩]
    (fun _ => .ok {}) (fun _ => true) true "100" ["m1"] (some "150")
    rfl rfl rfl rfl ⟨"m1", by decide, {}, rfl⟩).1

/-! ## Claim C3: successful multi-page pass -/

theorem goPages_done_of_no_err (labels : List String) (pages : List GPageFetch)
    (h : scanErr pages = none) :
    ∀ (acc : List String) (latest : Option String),
      ∃ ids lat, goPages labels pages acc latest = .done ids lat := by
  induction pages with
  | nil => intro acc latest; exact ⟨acc, latest, rfl⟩
  | cons pf rest ih =>
    intro acc latest
    cases pf with
    | page p =>
      have hrest : scanErr rest = none := by simpa [scanErr] using h
      exact ih hrest _ _
    | httpErr => simp [scanErr] at h
    | exn => simp [scanErr] at h

/-- C3 counterexample: two pages whose observed checkpoints decrease — the
code keeps the LAST observed checkpoint ("200"), not the maximum ("300"),
so "the new checkpoint equals the maximum observed" is false. -/
theorem C3_counterexample :
    list_new_message_ids_since
        [GPageFetch.page ⟨[⟨some "300", [⟨some "b", ["INBOX"]⟩]⟩], some "300"⟩,
         GPageFetch.page ⟨[⟨some "200", [⟨some "a", ["INBOX"]⟩]⟩], some "200"⟩]
        (some "100") none = .ok (["a", "b"], some "200") ∧
    maxObserved
        [GPageFetch.page ⟨[⟨some "300", [⟨some "b", ["INBOX"]⟩]⟩], some "300"⟩,
         GPageFetch.page ⟨[⟨some "200", [⟨some "a", ["INBOX"]⟩]⟩], some "200"⟩] =
      some "300" := ⟨rfl, by decide⟩

/-- C3 amended: a successful (error-free) pass returns each qualifying id
exactly once (deduplicated across change records), in sorted order; the new
checkpoint is the LAST checkpoint value observed across all pages (each
record id, overridden by each page's top-level historyId) — this equals the
maximum only when the observations are numerically non-decreasing, in which
case the last observed value dominates every observation. -/
theorem C3_successful_pass (pages : List GPageFetch) (c : String)
    (herr : scanErr pages = none) :
    ∃ ids latest, list_new_message_ids_since pages (some c) none = .ok (ids, latest) ∧
      (∀ mid, mid ∈ ids ↔
        ∃ p, GPageFetch.page p ∈ pages ∧ ∃ hr ∈ p.history, hrQual ["INBOX"] hr mid) ∧
      ids.Nodup ∧
      List.Sorted pyStrLe ids ∧
      latest = (observedCheckpoints pages).getLast? ∧
      ((observedCheckpoints pages).Pairwise (fun a b => histVal a ≤ histVal b) →
        ∀ m, latest = some m → ∀ x ∈ observedCheckpoints pages, histVal x ≤ histVal m) := by
  obtain ⟨ids0, lat, hgo⟩ := goPages_done_of_no_err ["INBOX"] pages herr [] none
  have hrun : list_new_message_ids_since pages (some c) none =
      .ok (List.insertionSort pyStrLe ids0, lat) := by
    unfold list_new_message_ids_since
    dsimp only
    rw [show (none : Option (List String)).getD ["INBOX"] = ["INBOX"] from rfl, hgo]
  refine ⟨List.insertionSort pyStrLe ids0, lat, hrun, ?_, ?_, ?_, ?_, ?_⟩
  · intro mid
    rw [List.mem_insertionSort, goPages_done_mem ["INBOX"] pages herr [] none ids0 lat hgo mid]
    simp only [List.not_mem_nil, false_or]
  · exact (List.perm_insertionSort pyStrLe ids0).nodup_iff.mpr
      (goPages_done_nodup ["INBOX"] pages [] none ids0 lat List.nodup_nil hgo)
  · haveI : IsTotal String pyStrLe := ⟨fun a b => by
      unfold pyStrLe strLeB
      rcases Bool.or_eq_true_iff.mp (listLeB_total a.data b.data) with h | h
      · exact Or.inl h
      · exact Or.inr h⟩
    haveI : IsTrans String pyStrLe :=
      ⟨fun a b c hab hbc => listLeB_trans a.data b.data c.data hab hbc⟩
    exact List.sorted_insertionSort pyStrLe ids0
  · have hlo := goPages_done_latest ["INBOX"] pages [] none ids0 lat hgo
    rw [hlo, lastOpt_getLast?]
    cases (observedCheckpoints pages).getLast? <;> rfl
  · intro hpw m hm x hx
    have hlo := goPages_done_latest ["INBOX"] pages [] none ids0 lat hgo
    rw [hlo, lastOpt_getLast?] at hm
    have hm' : (observedCheckpoints pages).getLast? = some m := by
      cases hg : (observedCheckpoints pages).getLast? with
      | none => rw [hg] at hm; cases hm
      | some y =>
        rw [hg] at hm
        exact hm
    exact pairwise_le_getLast? (observedCheckpoints pages) hpw m hm' x hx

theorem C3_successful_pass_witness :
    scanErr [GPageFetch.page ⟨[⟨some "150", [⟨some "m2", ["INBOX"]⟩,
                               ⟨some "m1", ["INBOX"]⟩]⟩], some "150"⟩] = none ∧
    (∃ ids latest, list_new_message_ids_since
        [GPageFetch.page ⟨[⟨some "150", [⟨some "m2", ["INBOX"]⟩,
                           ⟨some "m1", ["INBOX"]⟩]⟩], some "150"⟩]
        (some "100") none = .ok (ids, latest)) := by
  refine ⟨by decide, ?_⟩
  obtain ⟨ids, latest, h1, _⟩ := C3_successful_pass
    [GPageFetch.page ⟨[⟨some "150", [⟨some "m2", ["INBOX"]⟩,
                       ⟨some "m1", ["INBOX"]⟩]⟩], some "150"⟩] "100" (by decide)
  exact ⟨ids, latest, h1⟩

end EmailBot
